import Mathlib

/-!
# APIPulseMonitor: the API client and session layer

A shallow embedding of `Frontend/src/services/apiService.js`,
`Frontend/src/services/authService.js`, `Frontend/src/config/api.js`,
`Frontend/src/context/AuthContext.jsx`, the loads, forms and error handlers of
the pages under `Frontend/src/pages`, and the components `LatencyGraph.jsx`
and `ServiceCard.jsx`.

An `async` function is modelled by the value its promise settles with:
`Except JsError α`, where `.error e` is a rejection with the thrown error `e`.
The platform calls (`fetch`, `response.json()`, `response.text()`,
`localStorage`) are modelled by their outcomes, which are inputs of the model,
and the built-in functions (`JSON.parse`, `JSON.stringify`, `parseInt`,
`new URL`, `new Date`) are parameters.
-/

namespace APIPulse

/-! ## JavaScript values -/

/-- A JavaScript value as the client can meet one: `undefined`, or a value
produced by `JSON.parse`. Numbers are the integer-valued ones. An object is
the list of its own properties; a key is looked up at its first occurrence. -/
inductive JsValue where
  | undefined : JsValue
  | null : JsValue
  | bool (b : Bool) : JsValue
  | num (n : Int) : JsValue
  | str (s : String) : JsValue
  | arr (items : List JsValue) : JsValue
  | obj (fields : List (String × JsValue)) : JsValue
  deriving Repr, Inhabited

/-- The constructor of a thrown error: `Error`, `TypeError`, `SyntaxError`, or
any other class (a `DOMException`, say). -/
inductive ErrorKind where
  | error
  | typeError
  | syntaxError
  | other
  deriving DecidableEq, Repr, Inhabited

/-- A thrown error object: its class and its `message`. -/
structure JsError where
  kind : ErrorKind
  message : String
  deriving DecidableEq, Repr, Inhabited

/-- The texts of the `TypeError`s raised by the JavaScript engine itself; they
differ from engine to engine. -/
structure Engine where
  /-- message of the TypeError raised by reading property `k` of `null` or
  `undefined` -/
  readOfNullish : String → String
  /-- message of the TypeError raised when an object has no primitive value -/
  noPrimitive : String

/-- The messages of V8 (Chrome, Node). -/
def v8 : Engine where
  readOfNullish := fun k => "Cannot read properties of null (reading \x27" ++ k ++ "\x27)"
  noPrimitive := "Cannot convert object to primitive value"

/-- `ToBoolean`: the truthiness that `||`, `&&` and `!` test. -/
def truthy : JsValue → Bool
  | .undefined => false
  | .null => false
  | .bool b => b
  | .num n => n != 0
  | .str s => s != ""
  | .arr _ => true
  | .obj _ => true

/-- Own-property lookup in an object's property list. -/
def lookupField (k : String) : List (String × JsValue) → Option JsValue
  | [] => none
  | (k', v) :: rest => if k' = k then some v else lookupField k rest

/-- Property read `v.k`, for the keys the client reads (`message`, `error`,
`detail`, `services`, `data`), none of which is inherited from a prototype:
an object yields its own property or `undefined`, every other value but
`null` and `undefined` yields `undefined`, and those two throw a TypeError. -/
def getProp (eng : Engine) (v : JsValue) (k : String) : Except JsError JsValue :=
  match v with
  | .undefined => .error ⟨.typeError, eng.readOfNullish k⟩
  | .null => .error ⟨.typeError, eng.readOfNullish k⟩
  | .obj fields => .ok ((lookupField k fields).getD .undefined)
  | _ => .ok .undefined

/-- Joins the already converted items of an array with commas, as
`Array.prototype.join` does. -/
def joinComma : List String → String
  | [] => ""
  | [s] => s
  | s :: rest => s ++ "," ++ joinComma rest

mutual
/-- `ToString`. An object parsed from JSON prints as `[object Object]` unless
it has an own property `toString`, which is then not callable, and neither is
a primitive reached through `valueOf`: a TypeError. An array prints its items
joined by commas. A number prints in decimal, as JavaScript prints an integer
below 10^21 in magnitude. -/
def toStr (eng : Engine) : JsValue → Except JsError String
  | .undefined => .ok "undefined"
  | .null => .ok "null"
  | .bool b => .ok (if b then "true" else "false")
  | .num n => .ok (toString n)
  | .str s => .ok s
  | .arr items => (toStrItems eng items).map joinComma
  | .obj fields =>
    match lookupField "toString" fields with
    | some _ => .error ⟨.typeError, eng.noPrimitive⟩
    | none => .ok "[object Object]"
/-- The items of an array as `join` converts them: `null` and `undefined`
give the empty string. -/
def toStrItems (eng : Engine) : List JsValue → Except JsError (List String)
  | [] => .ok []
  | .undefined :: rest => (toStrItems eng rest).map (fun ss => "" :: ss)
  | .null :: rest => (toStrItems eng rest).map (fun ss => "" :: ss)
  | v :: rest =>
    match toStr eng v with
    | .error e => .error e
    | .ok s => (toStrItems eng rest).map (fun ss => s :: ss)
end

/-- The expression `new Error(v)`: an `Error` whose message is `ToString(v)`
(empty for `undefined`); the conversion itself may throw. -/
def newError (eng : Engine) (v : JsValue) : Except JsError JsError :=
  match v with
  | .undefined => .ok ⟨.error, ""⟩
  | _ =>
    match toStr eng v with
    | .error e => .error e
    | .ok s => .ok ⟨.error, s⟩

/-- The statement `throw new Error(v)`: the settled outcome is a rejection,
with the new error or with the TypeError of its construction. -/
def throwNewError {α : Type} (eng : Engine) (v : JsValue) : Except JsError α :=
  match newError eng v with
  | .error e => .error e
  | .ok e => .error e

/-! ## Strings -/

/-- Substring test on character lists. -/
def includesChars (needle : List Char) : List Char → Bool
  | [] => needle.isPrefixOf []
  | c :: cs => needle.isPrefixOf (c :: cs) || includesChars needle cs

/-- The method `s.includes(t)`. -/
def includes (s t : String) : Bool :=
  includesChars t.data s.data

/-! ## Configuration (`config/api.js`) -/

/-- The constant `API_BASE_URL`, the environment's `VITE_BACKEND_URL` followed
by `/api`; an unset variable is interpolated as `undefined`. -/
def API_BASE_URL (viteBackendUrl : Option String) : String :=
  viteBackendUrl.getD "undefined" ++ "/api"

/-! ## Responses -/

/-- What the client observes of a `Response`: the status line, the
`content-type` header (`none` when `headers.get` returns `null`), and the
outcomes of reading the body with `text()` and with `json()`. -/
structure Response where
  status : Nat
  statusText : String
  contentType : Option String
  text : Except JsError String
  json : Except JsError JsValue

/-- The getter `response.ok`: the status is in the range 200 to 299. -/
def Response.ok (r : Response) : Bool :=
  decide (200 ≤ r.status) && decide (r.status ≤ 299)

/-- The test `contentType && contentType.includes('application/json')`. -/
def declaresJson (contentType : Option String) : Bool :=
  match contentType with
  | none => false
  | some ct => ct != "" && includes ct "application/json"

/-- The chain `a || b`, where reading the right operand may throw. -/
def orElse (a : JsValue) (b : Except JsError JsValue) : Except JsError JsValue :=
  if truthy a then .ok a else b

/-- The handler shared by the `catch` blocks of `apiCall`, `login`, `signup`
and `logout`: a TypeError becomes an `Error` with a network message, every
other error is thrown again unchanged. -/
def rethrow (base : String) (error : JsError) : JsError :=
  if error.kind = .typeError then
    if includes error.message "fetch" then
      ⟨.error, "Network error: Unable to connect to the server at " ++ base ++
        ". Please check if the API server is running."⟩
    else
      ⟨.error, "Network error: " ++ error.message⟩
  else
    error

/-! ## The dispatcher (`services/apiService.js`) -/

/-- The `try` block of `apiCall`, given the outcome of `fetch`. -/
def apiCallTry (eng : Engine) (fetched : Except JsError Response) :
    Except JsError JsValue :=
  match fetched with
  | .error e => .error e
  | .ok response =>
    if declaresJson response.contentType then
      match response.json with
      | .error e => .error e
      | .ok data =>
        if !response.ok then
          if response.status = 401 ∨ response.status = 403 then
            throwNewError eng (.str "Unauthorized. Please login again.")
          else
            match (do
              let m ← getProp eng data "message"
              orElse m (do
                let e ← getProp eng data "error"
                orElse e (do
                  let d ← getProp eng data "detail"
                  orElse d (.ok (.str ("Request failed: " ++ toString response.status
                    ++ " " ++ response.statusText)))))) with
            | .error e => .error e
            | .ok v => throwNewError eng v
        else
          .ok data
    else
      match response.text with
      | .error e => .error e
      | .ok text =>
        if !response.ok then
          throwNewError eng
            (if text != "" then .str text
             else .str ("HTTP " ++ toString response.status ++ ": " ++ response.statusText))
        else
          .ok (.obj [("success", .bool true), ("message", .str text)])

/-- The function `apiCall`: the `try` block, and the `catch` handler on its
rejection. `base` is `API_BASE_URL`. -/
def apiCall (eng : Engine) (base : String) (fetched : Except JsError Response) :
    Except JsError JsValue :=
  match apiCallTry eng fetched with
  | .error e => .error (rethrow base e)
  | .ok v => .ok v

/-! ## The session marker and the auth calls (`services/authService.js`) -/

/-- The contents of `localStorage`: its keys with their values, in order. -/
abbrev Storage := List (String × String)

/-- The call `localStorage.getItem(k)`; `none` is `null`. -/
def getItem (st : Storage) (k : String) : Option String :=
  match st with
  | [] => none
  | (k', v) :: rest => if k' = k then some v else getItem rest k

/-- The call `localStorage.setItem(k, v)`: an existing key keeps its place
and takes the new value, a new key is added at the end. -/
def setItem (st : Storage) (k v : String) : Storage :=
  match st with
  | [] => [(k, v)]
  | (k', v') :: rest => if k' = k then (k, v) :: rest else (k', v') :: setItem rest k v

/-- The call `localStorage.removeItem(k)`. -/
def removeItem (st : Storage) (k : String) : Storage :=
  st.filter (fun entry => entry.1 != k)

/-- The function `getAccessToken`: `localStorage.getItem('isLoggedIn') || null`;
`none` is `null`. -/
def getAccessToken (st : Storage) : Option String :=
  match getItem st "isLoggedIn" with
  | some v => if v != "" then some v else none
  | none => none

/-- The function `setLoginFlag`. -/
def setLoginFlag (st : Storage) : Storage :=
  setItem st "isLoggedIn" "true"

/-- The function `removeAccessToken`. -/
def removeAccessToken (st : Storage) : Storage :=
  removeItem st "isLoggedIn"

/-- The `try` block of `login`, given the storage before the call and the
outcome of `fetch`: the storage afterwards and the settled outcome. -/
def loginTry (eng : Engine) (st : Storage) (fetched : Except JsError Response) :
    Storage × Except JsError JsValue :=
  match fetched with
  | .error e => (st, .error e)
  | .ok response =>
    if declaresJson response.contentType then
      match response.json with
      | .error e => (st, .error e)
      | .ok data =>
        if !response.ok then
          match (do
            let m ← getProp eng data "message"
            orElse m (do
              let e ← getProp eng data "error"
              orElse e (.ok (.str ("Login failed: " ++ toString response.status
                ++ " " ++ response.statusText))))) with
          | .error e => (st, .error e)
          | .ok v => (st, throwNewError eng v)
        else
          (setLoginFlag st, .ok data)
    else
      match response.text with
      | .error e => (st, .error e)
      | .ok text =>
        (st, throwNewError eng
          (if text != "" then .str text
           else .str ("HTTP " ++ toString response.status ++ ": " ++ response.statusText)))

/-- The function `login`: the `try` block, and the `catch` handler on its
rejection. `base` is `API_BASE_URL`. -/
def login (eng : Engine) (base : String) (st : Storage)
    (fetched : Except JsError Response) : Storage × Except JsError JsValue :=
  match loginTry eng st fetched with
  | (st', .error e) => (st', .error (rethrow base e))
  | (st', .ok v) => (st', .ok v)

/-- The value of `errorMessage` when `logout` reaches its `throw`: the status
line, replaced by `data.message || data.error || errorMessage` when the
response declares JSON and both the parse and the property reads succeed; the
inner `catch` discards every error. -/
def logoutErrorMessage (eng : Engine) (response : Response) : JsValue :=
  let errorMessage : JsValue :=
    .str ("Logout failed: " ++ toString response.status ++ " " ++ response.statusText)
  if declaresJson response.contentType then
    match response.json with
    | .error _ => errorMessage
    | .ok data =>
      match (do
        let m ← getProp eng data "message"
        orElse m (do
          let e ← getProp eng data "error"
          orElse e (.ok errorMessage))) with
      | .error _ => errorMessage
      | .ok v => v
  else
    errorMessage

/-- The `try` block of `logout`: the marker is removed as soon as `fetch` has
resolved. -/
def logoutTry (eng : Engine) (st : Storage) (fetched : Except JsError Response) :
    Storage × Except JsError JsValue :=
  match fetched with
  | .error e => (st, .error e)
  | .ok response =>
    let st' := removeAccessToken st
    if !response.ok then
      (st', throwNewError eng (logoutErrorMessage eng response))
    else if declaresJson response.contentType then
      (st', response.json)
    else
      (st', .ok (.obj [("success", .bool true)]))

/-- The function `logout`: the `try` block, and the `catch` handler, which
removes the marker again before it throws. -/
def logout (eng : Engine) (base : String) (st : Storage)
    (fetched : Except JsError Response) : Storage × Except JsError JsValue :=
  match logoutTry eng st fetched with
  | (st', .error e) => (removeAccessToken st', .error (rethrow base e))
  | (st', .ok v) => (st', .ok v)

/-- The `try` block of `signup`; it differs from that of `login` in the text of
its fallback message only. -/
def signupTry (eng : Engine) (st : Storage) (fetched : Except JsError Response) :
    Storage × Except JsError JsValue :=
  match fetched with
  | .error e => (st, .error e)
  | .ok response =>
    if declaresJson response.contentType then
      match response.json with
      | .error e => (st, .error e)
      | .ok data =>
        if !response.ok then
          match (do
            let m ← getProp eng data "message"
            orElse m (do
              let e ← getProp eng data "error"
              orElse e (.ok (.str ("Signup failed: " ++ toString response.status
                ++ " " ++ response.statusText))))) with
          | .error e => (st, .error e)
          | .ok v => (st, throwNewError eng v)
        else
          (setLoginFlag st, .ok data)
    else
      match response.text with
      | .error e => (st, .error e)
      | .ok text =>
        (st, throwNewError eng
          (if text != "" then .str text
           else .str ("HTTP " ++ toString response.status ++ ": " ++ response.statusText)))

/-- The function `signup`: the `try` block, and the `catch` handler on its
rejection. -/
def signup (eng : Engine) (base : String) (st : Storage)
    (fetched : Except JsError Response) : Storage × Except JsError JsValue :=
  match signupTry eng st fetched with
  | (st', .error e) => (st', .error (rethrow base e))
  | (st', .ok v) => (st', .ok v)

/-! ## The auth context (`context/AuthContext.jsx`) -/

/-- The value `!!token` that the mount effect of `AuthProvider` passes to
`setIsAuthenticated`, where `token = getAccessToken()`. -/
def AuthProvider.seed (st : Storage) : Bool :=
  match getAccessToken st with
  | some token => token != ""
  | none => false

/-! ## Requests (`services/apiService.js`, `config/api.js`) -/

/-- The string constant `API_ENDPOINTS.AUTH.LOGIN`. -/
def API_ENDPOINTS.AUTH.LOGIN : String := "/auth/login"

/-- The string constant `API_ENDPOINTS.AUTH.SIGNUP`. -/
def API_ENDPOINTS.AUTH.SIGNUP : String := "/auth/signup"

/-- The string constant `API_ENDPOINTS.AUTH.LOGOUT`. -/
def API_ENDPOINTS.AUTH.LOGOUT : String := "/auth/logout"

/-- The string constant `API_ENDPOINTS.SERVICES`. -/
def API_ENDPOINTS.SERVICES : String := "/services"

/-- The string constant `API_ENDPOINTS.SERVICE`. -/
def API_ENDPOINTS.SERVICE : String := "/services/service"

/-- The string constant `API_ENDPOINTS.SERVICE_DETAILS`. -/
def API_ENDPOINTS.SERVICE_DETAILS : String := "/services/service_details"

/-- The template `API_ENDPOINTS.SERVICE_LOGS(id)`. -/
def API_ENDPOINTS.SERVICE_LOGS (id : String) : String :=
  "/services/service/" ++ id ++ "/logs"

/-- The template `API_ENDPOINTS.SERVICE_INCIDENTS(id)`. -/
def API_ENDPOINTS.SERVICE_INCIDENTS (id : String) : String :=
  "/services/service/" ++ id ++ "/incident-logs"

/-- The `options` argument of `apiCall`: the properties that `apiCall` or
`fetch` read, each absent (`none`) or present. `headers` is a plain object
with string values, a key being looked up at its first occurrence. -/
structure Options where
  method : Option String
  body : Option String
  headers : Option (List (String × String))
  credentials : Option String

/-- The arguments of the `fetch` call: the URL and the init object. -/
structure Request where
  url : String
  method : Option String
  body : Option String
  headers : List (String × String)
  credentials : String

/-- Writing property `k` of an object with string values: an existing key
keeps its place and takes the new value, a new key is added at the end. -/
def setProp (o : List (String × String)) (k v : String) : List (String × String) :=
  match o with
  | [] => [(k, v)]
  | (k', v') :: rest => if k' = k then (k, v) :: rest else (k', v') :: setProp rest k v

/-- The own properties of an object given as a list: each key once, with the
value of its first occurrence. -/
def ownProps : List (String × String) → List (String × String)
  | [] => []
  | (k, v) :: rest => (k, v) :: (ownProps rest).filter (fun entry => entry.1 != k)

/-- The object literal `{ ...target, ...source }`: the properties of `source`
are written over `target` one after the other. -/
def spread (target source : List (String × String)) : List (String × String) :=
  (ownProps source).foldl (fun acc entry => setProp acc entry.1 entry.2) target

/-- The two headers that `apiCall` puts before the caller's. -/
def defaultHeaders : List (String × String) :=
  [("Content-Type", "application/json"), ("ngrok-skip-browser-warning", "true")]

/-- The arguments with which `apiCall(url, options)` calls `fetch`:
`{ ...options, headers: { <defaults>, ...options.headers }, credentials: 'include' }`. -/
def fetchArgs (url : String) (options : Options) : Request where
  url := url
  method := options.method
  body := options.body
  headers := spread defaultHeaders (options.headers.getD [])
  credentials := "include"

/-- The network: what `fetch` settles with for each request. -/
abbrev Network := Request → Except JsError Response

/-- The function `apiCall(url, options)` as a step of the browser: the
storage after the call and the settled outcome. It calls `fetch` on
`fetchArgs url options` and has no statement that touches `localStorage`. -/
def apiCallFetch (eng : Engine) (base : String) (net : Network) (st : Storage)
    (url : String) (options : Options) : Storage × Except JsError JsValue :=
  (st, apiCall eng base (net (fetchArgs url options)))

/-- A call `apiCall(url, options)`, which is all that a service operation
consists of. -/
structure Call where
  url : String
  options : Options

/-- Performs a call of `apiCall`. -/
def Call.run (eng : Engine) (base : String) (net : Network) (st : Storage)
    (call : Call) : Storage × Except JsError JsValue :=
  apiCallFetch eng base net st call.url call.options

/-- The operation `getServices()`. -/
def getServices (base : String) : Call where
  url := base ++ API_ENDPOINTS.SERVICES
  options := { method := some "GET", body := none, headers := none, credentials := none }

/-- The operation `getService(id)`. -/
def getService (base id : String) : Call where
  url := base ++ API_ENDPOINTS.SERVICE ++ "/" ++ id
  options := { method := some "GET", body := none, headers := none, credentials := none }

/-- The operation `getServiceDetails(id)`. -/
def getServiceDetails (base id : String) : Call where
  url := base ++ API_ENDPOINTS.SERVICE_DETAILS ++ "/" ++ id
  options := { method := some "GET", body := none, headers := none, credentials := none }

/-- The operation `createService(serviceData)`; `stringify` is
`JSON.stringify`, which returns `undefined` (`none`) for some arguments. -/
def createService (stringify : JsValue → Option String) (base : String)
    (serviceData : JsValue) : Call where
  url := base ++ API_ENDPOINTS.SERVICE
  options := { method := some "POST", body := stringify serviceData, headers := none,
               credentials := none }

/-- The operation `updateService(id, serviceData)`. -/
def updateService (stringify : JsValue → Option String) (base id : String)
    (serviceData : JsValue) : Call where
  url := base ++ API_ENDPOINTS.SERVICE ++ "/" ++ id
  options := { method := some "PUT", body := stringify serviceData, headers := none,
               credentials := none }

/-- The operation `deleteService(id)`. -/
def deleteService (base id : String) : Call where
  url := base ++ API_ENDPOINTS.SERVICE ++ "/" ++ id
  options := { method := some "DELETE", body := none, headers := none, credentials := none }

/-- The operation `getServiceLogs(id)`. -/
def getServiceLogs (base id : String) : Call where
  url := base ++ API_ENDPOINTS.SERVICE_LOGS id
  options := { method := some "GET", body := none, headers := none, credentials := none }

/-- The operation `getServiceIncidents(id)`. -/
def getServiceIncidents (base id : String) : Call where
  url := base ++ API_ENDPOINTS.SERVICE_INCIDENTS id
  options := { method := some "GET", body := none, headers := none, credentials := none }

/-- The arguments of the `fetch` call of `login(email, password)`; `stringify`
is `JSON.stringify`. -/
def loginRequest (stringify : JsValue → Option String) (base email password : String) :
    Request where
  url := base ++ API_ENDPOINTS.AUTH.LOGIN
  method := some "POST"
  body := stringify (.obj [("email", .str email), ("password", .str password)])
  headers := [("Content-Type", "application/json"), ("ngrok-skip-browser-warning", "true")]
  credentials := "include"

/-- The arguments of the `fetch` call of `signup(full_name, email, password)`. -/
def signupRequest (stringify : JsValue → Option String)
    (base full_name email password : String) : Request where
  url := base ++ API_ENDPOINTS.AUTH.SIGNUP
  method := some "POST"
  body := stringify (.obj [("full_name", .str full_name), ("email", .str email),
    ("password", .str password)])
  headers := [("Content-Type", "application/json"), ("ngrok-skip-browser-warning", "true")]
  credentials := "include"

/-! ## The error handlers of the pages (`pages/*/*.jsx`) -/

/-- The state that the error handlers of the pages write: the local storage,
the `isAuthenticated` flag of the auth context, the current route, the
page's `error` and `services` states, and the error toasts shown so far. -/
structure PageState where
  storage : Storage
  isAuthenticated : Bool
  location : String
  error : String
  services : List JsValue
  toasts : List String

/-- The function `logout` of the auth context, which the pages call
`handleLogout`: `removeAccessToken()`, then `setIsAuthenticated(false)`. -/
def AuthContext.logout (s : PageState) : PageState :=
  { s with storage := removeAccessToken s.storage, isAuthenticated := false }

/-- The call `navigate(path)`. -/
def navigate (path : String) (s : PageState) : PageState :=
  { s with location := path }

/-- The call `toast.error(m)`. -/
def toastError (m : String) (s : PageState) : PageState :=
  { s with toasts := s.toasts ++ [m] }

/-- The expression `err.message || fallback`. -/
def messageOr (err : JsError) (fallback : String) : String :=
  if err.message != "" then err.message else fallback

/-- The test `m.includes('Unauthorized') || m.includes('token')` of Details,
EditService, AddService, Logs and Incidents. -/
def isAuthError (m : String) : Bool :=
  includes m "Unauthorized" || includes m "token"

/-- The test of Home:
`m.includes('token') || m.includes('unauthorized') || m.includes('Unauthorized')`. -/
def Home.isAuthError (m : String) : Bool :=
  includes m "token" || includes m "unauthorized" || includes m "Unauthorized"

/-- The `catch` block of `fetchServices` in Home. -/
def Home.fetchServicesCatch (err : JsError) (s : PageState) : PageState :=
  let s1 := { s with error := messageOr err "Failed to load services", services := [] }
  if Home.isAuthError err.message then navigate "/login" (AuthContext.logout s1) else s1

/-- The `catch` block of `fetchServiceDetails` in Details. -/
def Details.fetchServiceDetailsCatch (err : JsError) (s : PageState) : PageState :=
  let message := messageOr err "Failed to load service details"
  let s1 := toastError message { s with error := message }
  if isAuthError err.message then navigate "/login" (AuthContext.logout s1) else s1

/-- The `catch` block of `handleDelete` in Details. -/
def Details.handleDeleteCatch (err : JsError) (s : PageState) : PageState :=
  toastError (messageOr err "Failed to delete service") s

/-- The `catch` block of `fetchService` in EditService; the test reads the
message after the fallback has been applied. -/
def EditService.fetchServiceCatch (err : JsError) (s : PageState) : PageState :=
  let message := messageOr err "Failed to load service details."
  let s1 := toastError message s
  if isAuthError message then navigate "/login" (AuthContext.logout s1) else s1

/-- The `catch` block of `handleSubmit` in EditService. -/
def EditService.handleSubmitCatch (err : JsError) (s : PageState) : PageState :=
  toastError (messageOr err "Failed to update service") s

/-- The `catch` block of `handleSubmit` in AddService. -/
def AddService.handleSubmitCatch (err : JsError) (s : PageState) : PageState :=
  let s1 := toastError (messageOr err "Failed to create service") s
  if isAuthError err.message then navigate "/login" (AuthContext.logout s1) else s1

/-- The `catch` block of `fetchData` in Logs. -/
def Logs.fetchDataCatch (err : JsError) (s : PageState) : PageState :=
  let errorMessage := messageOr err "Failed to load logs"
  let s1 := toastError errorMessage { s with error := errorMessage }
  if isAuthError err.message then navigate "/login" (AuthContext.logout s1) else s1

/-- The `catch` block of `fetchData` in Incidents. -/
def Incidents.fetchDataCatch (err : JsError) (s : PageState) : PageState :=
  let errorMessage := messageOr err "Failed to load incidents"
  let s1 := toastError errorMessage { s with error := errorMessage }
  if isAuthError err.message then navigate "/login" (AuthContext.logout s1) else s1

/-! ## The list of Home (`pages/Home/Home.jsx`) -/

/-- The test `Array.isArray(v)`, with the items of the array. -/
def asArray : JsValue → Option (List JsValue)
  | .arr items => some items
  | _ => none

/-- The branches of `fetchServices` after `const data = await getServices()`:
the list handed to `setServices`, or the TypeError of a property read. -/
def Home.pickServices (eng : Engine) (data : JsValue) : Except JsError (List JsValue) :=
  match asArray data with
  | some items => .ok items
  | none => do
    let services ← getProp eng data "services"
    match (if truthy services then asArray services else none) with
    | some items => .ok items
    | none => do
      let inner ← getProp eng data "data"
      match (if truthy inner then asArray inner else none) with
      | some items => .ok items
      | none => .ok []

/-- The `try` and `catch` of `fetchServices` in Home, which run when the user
is authenticated, given the outcome of `getServices()`: `setError('')`, then
the list of the branches, or the `catch` block on any error. -/
def Home.fetchServices (eng : Engine) (result : Except JsError JsValue)
    (s : PageState) : PageState :=
  let s0 := { s with error := "" }
  match result with
  | .error err => Home.fetchServicesCatch err s0
  | .ok data =>
    match Home.pickServices eng data with
    | .error err => Home.fetchServicesCatch err s0
    | .ok items => { s0 with services := items }

/-- The own property `k` of `r` when `r` is an object that has it. -/
def fieldOf (r : JsValue) (k : String) : JsValue :=
  match r with
  | .obj fields => (lookupField k fields).getD .undefined
  | _ => .undefined

/-- The list that Home is to show for a result `r`, in the words of the
specification: `r` itself when it is an array, otherwise `r.services` when
that is an array, otherwise `r.data` when that is an array, otherwise the
empty list. -/
def Home.shownList (r : JsValue) : List JsValue :=
  match asArray r with
  | some items => items
  | none =>
    match asArray (fieldOf r "services") with
    | some items => items
    | none =>
      match asArray (fieldOf r "data") with
      | some items => items
      | none => []

/-- The states of the marker that the data model allows: the key `isLoggedIn`
is absent or holds exactly "true". -/
def markerOk (st : Storage) : Prop :=
  getItem st "isLoggedIn" = none ∨ getItem st "isLoggedIn" = some "true"

/-- Two storages hold the same value under every key but `isLoggedIn`. -/
def sameOtherKeys (st st' : Storage) : Prop :=
  ∀ k, k ≠ "isLoggedIn" → getItem st' k = getItem st k

/-! ## The joined loads of Logs and Incidents (`pages/Logs/Logs.jsx`, `pages/Incidents/Incidents.jsx`) -/

/-- The state that `fetchData` writes in Logs and in Incidents: the state
shared with the other pages, the service name and the rows of the table. -/
structure RowsPage where
  page : PageState
  serviceName : JsValue
  rows : List JsValue

/-- The call `Promise.all([a, b])` awaited: the pair of the two values when
both promises fulfil, the error of the one that rejects otherwise; when both
reject, the error of the one that rejects first, which `firstRejectsFirst`
tells. -/
def promiseAll2 {α β : Type} (firstRejectsFirst : Bool) (a : Except JsError α)
    (b : Except JsError β) : Except JsError (α × β) :=
  match a, b with
  | .ok x, .ok y => .ok (x, y)
  | .error e, .ok _ => .error e
  | .ok _, .error e => .error e
  | .error e1, .error e2 => if firstRejectsFirst then .error e1 else .error e2

/-- The optional read `v?.k`, for the keys `data` and `name`. -/
def optProp (v : JsValue) (k : String) : JsValue :=
  match v with
  | .obj fields => (lookupField k fields).getD .undefined
  | _ => .undefined

/-- The expression `serviceData?.data?.name || 'Service'`. -/
def serviceNameOf (serviceData : JsValue) : JsValue :=
  let name := optProp (optProp serviceData "data") "name"
  if truthy name then name else .str "Service"

/-- The branches of `fetchData` in Logs that choose the rows: `logsData`
itself, `logsData.logs`, `logsData.data`, or the empty list. -/
def Logs.pickRows (eng : Engine) (logsData : JsValue) : Except JsError (List JsValue) :=
  match asArray logsData with
  | some items => .ok items
  | none => do
    let logs ← getProp eng logsData "logs"
    match (if truthy logs then asArray logs else none) with
    | some items => .ok items
    | none => do
      let inner ← getProp eng logsData "data"
      match (if truthy inner then asArray inner else none) with
      | some items => .ok items
      | none => .ok []

/-- The branches of `fetchData` in Incidents that choose the rows:
`incidentsData` itself, `incidentsData.data`, or the empty list. -/
def Incidents.pickRows (eng : Engine) (incidentsData : JsValue) :
    Except JsError (List JsValue) :=
  match asArray incidentsData with
  | some items => .ok items
  | none => do
    let inner ← getProp eng incidentsData "data"
    match (if truthy inner then asArray inner else none) with
    | some items => .ok items
    | none => .ok []

/-- The `try` and `catch` of `fetchData` in Logs, given the outcomes of
`getService(id)` and `getServiceLogs(id)`. -/
def Logs.fetchData (eng : Engine) (firstRejectsFirst : Bool)
    (serviceResult logsResult : Except JsError JsValue) (s : RowsPage) : RowsPage :=
  let s0 := { s with page := { s.page with error := "" } }
  match promiseAll2 firstRejectsFirst serviceResult logsResult with
  | .error err => { s0 with page := Logs.fetchDataCatch err s0.page }
  | .ok (serviceData, logsData) =>
    let s1 := { s0 with serviceName := serviceNameOf serviceData }
    match Logs.pickRows eng logsData with
    | .error err => { s1 with page := Logs.fetchDataCatch err s1.page }
    | .ok rows => { s1 with rows := rows }

/-- The `try` and `catch` of `fetchData` in Incidents, given the outcomes of
`getService(id)` and `getServiceIncidents(id)`. -/
def Incidents.fetchData (eng : Engine) (firstRejectsFirst : Bool)
    (serviceResult incidentsResult : Except JsError JsValue) (s : RowsPage) : RowsPage :=
  let s0 := { s with page := { s.page with error := "" } }
  match promiseAll2 firstRejectsFirst serviceResult incidentsResult with
  | .error err => { s0 with page := Incidents.fetchDataCatch err s0.page }
  | .ok (serviceData, incidentsData) =>
    let s1 := { s0 with serviceName := serviceNameOf serviceData }
    match Incidents.pickRows eng incidentsData with
    | .error err => { s1 with page := Incidents.fetchDataCatch err s1.page }
    | .ok rows => { s1 with rows := rows }

/-! ## The latency chart (`components/LatencyGraph.jsx`) -/

/-- A latency sample: `checked_at` is the time value, in milliseconds, of
`new Date(item.checked_at)`, a valid timestamp. -/
structure LatencySample where
  checked_at : Int
  response_time_ms : JsValue

/-- A point of the chart. -/
structure ChartPoint where
  id : Nat
  checkedAt : String
  latency : JsValue

/-- The order of the comparator `(a, b) => new Date(a.checked_at) - new Date(b.checked_at)`:
`a` does not come after `b`. -/
def LatencyGraph.notAfter (a b : LatencySample) : Prop :=
  a.checked_at ≤ b.checked_at

instance LatencyGraph.decNotAfter : DecidableRel LatencyGraph.notAfter :=
  fun a b => Int.decLe a.checked_at b.checked_at

/-- The constant `sortedData`: `[...latencyData].sort(comparator)`. The sort
of the platform is stable and, the comparator being consistent, returns the
one sorted list that keeps samples of equal time in their order, which is the
list that insertion sort computes. -/
def LatencyGraph.sortedData (latencyData : List LatencySample) : List LatencySample :=
  latencyData.insertionSort LatencyGraph.notAfter

/-- The call `sortedData.map((item, index) => ...)` from position `index` on;
`timeLabel` is the `toLocaleTimeString` of the platform. -/
def LatencyGraph.mapFrom (timeLabel : Int → String) (index : Nat) :
    List LatencySample → List ChartPoint
  | [] => []
  | item :: rest =>
    { id := index + 1, checkedAt := timeLabel item.checked_at,
      latency := item.response_time_ms } :: LatencyGraph.mapFrom timeLabel (index + 1) rest

/-- The constant `chartData`. -/
def LatencyGraph.chartData (timeLabel : Int → String) (latencyData : List LatencySample) :
    List ChartPoint :=
  LatencyGraph.mapFrom timeLabel 0 (LatencyGraph.sortedData latencyData)

/-! ## Durations and messages (`pages/Incidents/Incidents.jsx`, `pages/Logs/Logs.jsx`) -/

/-- The quotient `n / d` of two naturals rounded to the nearest integer, a
tie going to the even one (`d` is positive). -/
def roundHalfEven (n d : Nat) : Nat :=
  if 2 * (n % d) < d then n / d
  else if d < 2 * (n % d) then n / d + 1
  else if (n / d) % 2 = 0 then n / d
  else n / d + 1

/-- For `d ≤ n`: the largest `e`, up to `fuel`, with `d * 2 ^ e ≤ n`. -/
def upExp : Nat → Nat → Nat → Nat
  | 0, _, _ => 0
  | fuel + 1, n, d => if 2 * d ≤ n then upExp fuel n (2 * d) + 1 else 0

/-- For `n < d`: the least `j`, up to `fuel`, with `d ≤ n * 2 ^ j`. -/
def downExp : Nat → Nat → Nat → Nat
  | 0, _, _ => 0
  | fuel + 1, n, d => if d ≤ n then 0 else downExp fuel (2 * n) d + 1

/-- The IEEE 754 double nearest to the quotient `n / d` of two positive
naturals, as a fraction `(numerator, denominator)` whose denominator is a
power of two: with `2 ^ e ≤ n / d < 2 ^ (e + 1)`, the quotient is scaled by
`2 ^ (52 - e)`, rounded to the nearest integer, a tie going to the even one,
and scaled back, which leaves a significand of 53 bits. The quotients of
`calculateDuration` are far from the subnormal and the overflow range, which
are not modelled. -/
def nearestDouble (n d : Nat) : Nat × Nat :=
  if d ≤ n then
    let e := upExp 1100 n d
    if e ≤ 52 then (roundHalfEven (n * 2 ^ (52 - e)) d, 2 ^ (52 - e))
    else (roundHalfEven n (d * 2 ^ (e - 52)) * 2 ^ (e - 52), 1)
  else
    let j := downExp 1100 n d
    (roundHalfEven (n * 2 ^ (52 + j)) d, 2 ^ (52 + j))

/-- The double nearest to the integer `x`: `x` itself up to 2^53 in magnitude,
and beyond that the nearest integer with a significand of 53 bits. It is the
result of the subtraction `endTime - startTime`, whose operands are time
values, integers of at most 8.64 * 10^15 in magnitude and so doubles, and
whose exact difference is `x`. -/
def doubleOfInt (x : Int) : Int :=
  if x = 0 then 0
  else
    Int.sign x * (((nearestDouble x.natAbs 1).1 / (nearestDouble x.natAbs 1).2 : Nat) : Int)

/-- The expression `Math.floor(x / c)` for a double `x` that is an integer and
a positive integer constant `c`: the division rounds the quotient to the
nearest double, and `Math.floor` takes the floor of that double. -/
def floorOfQuotient (x : Int) (c : Nat) : Int :=
  if x = 0 then 0
  else if 0 < x then
    (((nearestDouble x.natAbs c).1 / (nearestDouble x.natAbs c).2 : Nat) : Int)
  else
    - ((((nearestDouble x.natAbs c).1 + (nearestDouble x.natAbs c).2 - 1)
        / (nearestDouble x.natAbs c).2 : Nat) : Int)

/-- The function `calculateDuration(start, end)` of Incidents. An argument is
a string or missing (`none`); `timeValue` is the time value of `new Date(s)`,
an integer of at most 8.64 * 10^15 in magnitude, or `none` for an invalid date.
The numbers are doubles: the difference and the two quotients are rounded as
the code rounds them. -/
def calculateDuration (timeValue : String → Option Int) (start finish : Option String) :
    String :=
  match start, finish with
  | some s, some e =>
    if s = "" ∨ e = "" then "N/A"
    else
      match timeValue s, timeValue e with
      | some startTime, some endTime =>
        let diffMs := doubleOfInt (endTime - startTime)
        let diffMinutes := floorOfQuotient diffMs 60000
        if diffMinutes < 60 then toString diffMinutes ++ " min"
        else
          let hours := floorOfQuotient diffMinutes 60
          let mins := Int.tmod diffMinutes 60
          toString hours ++ "h " ++ toString mins ++ "m"
      | _, _ => "NaNh NaNm"
  | _, _ => "N/A"

/-- A string as the list of its UTF-16 code units, which are what `length`
counts and `slice` cuts. -/
abbrev CodeUnits := List Nat

/-- The string `'—'`, one code unit. -/
def emDash : CodeUnits := [0x2014]

/-- The string `'...'`. -/
def ellipsis : CodeUnits := [0x2E, 0x2E, 0x2E]

/-- The function `trimError(msg)` of Logs and of Incidents; `none` is a
missing message (`null` or `undefined`). -/
def trimError (msg : Option CodeUnits) : CodeUnits :=
  match msg with
  | none => emDash
  | some m =>
    if m.isEmpty then emDash
    else if m.length > 100 then m.take 100 ++ ellipsis else m

/-! ## The status badge (`components/ServiceCard.jsx`) -/

/-- The function `getStatusColor(status)` of ServiceCard. -/
def getStatusColor (status : JsValue) : String :=
  if truthy status then "bg-green-100 text-green-800 border-green-200"
  else "bg-red-100 text-red-800 border-red-200"

/-- The colour classes of the badge:
`getStatusColor(service.is_healthy || service.status)`. -/
def ServiceCard.badgeColor (service : List (String × JsValue)) : String :=
  let is_healthy := (lookupField "is_healthy" service).getD .undefined
  let status := (lookupField "status" service).getD .undefined
  getStatusColor (if truthy is_healthy then is_healthy else status)

/-- The text of the badge: `service.is_healthy ? "Success" : 'Failed'`. -/
def ServiceCard.badgeLabel (service : List (String × JsValue)) : String :=
  if truthy ((lookupField "is_healthy" service).getD .undefined) then "Success"
  else "Failed"

/-! ## The service forms (`pages/AddService/AddService.jsx`, `pages/EditService/EditService.jsx`) -/

/-- The built-in functions that the forms call, as the platform provides
them: `parse` is `JSON.parse(text)`, `stringify2` is
`JSON.stringify(value, null, 2)` on a value that is not `undefined`,
`parseInt` is `parseInt(value)`, and `validUrl text` tells that
`new URL(text)` does not throw. -/
structure Builtins where
  parse : String → Except JsError JsValue
  stringify2 : JsValue → String
  parseInt : JsValue → JsValue
  validUrl : String → Bool

/-- The state `formData` of AddService and of EditService. The three JSON
fields hold texts; the other fields hold what the inputs or the loaded record
gave them. -/
structure FormData where
  name : JsValue
  http_method : JsValue
  url : JsValue
  request_headers : String
  request_body : String
  periodic_summary_report : JsValue
  expected_status_code : JsValue
  expected_latency_ms : JsValue
  response_validation : String

/-- The white space and line terminators that `String.prototype.trim`
removes. -/
def isJsWhitespace (c : Char) : Bool :=
  [0x09, 0x0A, 0x0B, 0x0C, 0x0D, 0x20, 0xA0, 0x1680, 0x2028, 0x2029, 0x202F, 0x205F,
    0x3000, 0xFEFF].contains c.toNat || (decide (0x2000 ≤ c.toNat) && decide (c.toNat ≤ 0x200A))

/-- The test `!s.trim()` on a string: nothing is left after trimming. -/
def isBlank (s : String) : Bool :=
  s.data.all isJsWhitespace

/-- The test `!v.trim()` on a form value; `none` when `v.trim` is not a
function, which throws a TypeError. -/
def trimmedBlank (v : JsValue) : Option Bool :=
  match v with
  | .str s => some (isBlank s)
  | _ => none

/-- The function `validateJSON(jsonString, fieldName)` of both forms: a blank
text is accepted without being parsed, any other text is accepted when
`JSON.parse` does not throw. -/
def validateJSON (P : Builtins) (jsonString : String) : Bool :=
  if isBlank jsonString then true
  else
    match P.parse jsonString with
    | .ok _ => true
    | .error _ => false

/-- The keys of `newErrors` at the end of `validateForm`; `none` when
`validateForm` throws. -/
def validateFormErrors (P : Builtins) (formData : FormData) : Option (List String) := do
  let nameBlank ← trimmedBlank formData.name
  let urlBlank ← trimmedBlank formData.url
  let urlValid :=
    match formData.url with
    | .str u => P.validUrl u
    | _ => false
  pure ((if nameBlank then ["name"] else [])
    ++ (if urlBlank then ["url"] else if urlValid then [] else ["url"])
    ++ (if !validateJSON P formData.request_headers then ["request_headers"] else [])
    ++ (if formData.request_body != "" && !validateJSON P formData.request_body
        then ["request_body"] else [])
    ++ (if !validateJSON P formData.response_validation then ["response_validation"]
        else []))

/-- The function `validateForm()` of both forms:
`Object.keys(newErrors).length === 0`. -/
def validateForm (P : Builtins) (formData : FormData) : Option Bool :=
  (validateFormErrors P formData).map (fun keys => keys.length == 0)

/-- The object literal that `handleSubmit` builds in its `try` block
(`serviceData` in AddService, `payload` in EditService), or the error that
`JSON.parse` throws meanwhile. -/
def buildPayload (P : Builtins) (formData : FormData) : Except JsError JsValue :=
  match P.parse (if formData.request_headers != "" then formData.request_headers
      else "\x7b\x7d") with
  | .error e => .error e
  | .ok request_headers =>
    match (if formData.request_body != "" then P.parse formData.request_body
        else .ok .null) with
    | .error e => .error e
    | .ok request_body =>
      match P.parse (if formData.response_validation != "" then formData.response_validation
          else "\x7b\x7d") with
      | .error e => .error e
      | .ok response_validation =>
        .ok (.obj [
          ("name", formData.name),
          ("http_method", formData.http_method),
          ("url", formData.url),
          ("request_headers", request_headers),
          ("request_body", request_body),
          ("periodic_summary_report", P.parseInt formData.periodic_summary_report),
          ("expected_status_code", P.parseInt formData.expected_status_code),
          ("expected_latency_ms", P.parseInt formData.expected_latency_ms),
          ("response_validation", response_validation)])

/-- The expression `v || d`. -/
def orDefault (v d : JsValue) : JsValue :=
  if truthy v then v else d

/-- The argument of `setFormData` in `fetchService` of EditService; `data` is
the object `res.data`. -/
def EditService.loadForm (P : Builtins) (data : List (String × JsValue)) : FormData where
  name := orDefault ((lookupField "name" data).getD .undefined) (.str "")
  http_method := orDefault ((lookupField "http_method" data).getD .undefined) (.str "GET")
  url := orDefault ((lookupField "url" data).getD .undefined) (.str "")
  request_headers :=
    P.stringify2 (orDefault ((lookupField "request_headers" data).getD .undefined) (.obj []))
  request_body :=
    if truthy ((lookupField "request_body" data).getD .undefined)
    then P.stringify2 ((lookupField "request_body" data).getD .undefined) else ""
  periodic_summary_report :=
    orDefault ((lookupField "periodic_summary_report" data).getD .undefined) (.num 120)
  expected_status_code :=
    orDefault ((lookupField "expected_status_code" data).getD .undefined) (.num 200)
  expected_latency_ms :=
    orDefault ((lookupField "expected_latency_ms" data).getD .undefined) (.num 500)
  response_validation :=
    P.stringify2
      (orDefault ((lookupField "response_validation" data).getD .undefined) (.obj []))

/-- The nine keys of the body of a create or update request. -/
def payloadKeys : List String :=
  ["name", "http_method", "url", "request_headers", "request_body",
    "periodic_summary_report", "expected_status_code", "expected_latency_ms",
    "response_validation"]

/-! ## Inputs used in the examples -/

/-- An object all of whose properties hold strings. -/
def strObj (fields : List (String × String)) : JsValue :=
  .obj (fields.map (fun entry => (entry.1, .str entry.2)))

/-- The string property `k` of `strObj fields` when it is present and
non-empty. -/
def nonEmptyField (fields : List (String × String)) (k : String) : Option String :=
  match fields.lookup k with
  | some s => if s = "" then none else some s
  | none => none

/-- A 401 response with a plain-text body. -/
def plainText401 : Response where
  status := 401
  statusText := "Unauthorized"
  contentType := some "text/plain; charset=utf-8"
  text := .ok "Session expired"
  json := .error ⟨.syntaxError, "Unexpected token S in JSON at position 0"⟩

/-- The response of the login scenario: 401 with the JSON body
`{error: "bad credentials"}`. -/
def badCredentials401 : Response where
  status := 401
  statusText := "Unauthorized"
  contentType := some "application/json"
  text := .ok "\x7b\"error\":\"bad credentials\"\x7d"
  json := .ok (.obj [("error", .str "bad credentials")])

/-- A 500 response whose JSON body is `null`. -/
def nullBody500 : Response where
  status := 500
  statusText := "Internal Server Error"
  contentType := some "application/json"
  text := .ok "null"
  json := .ok .null

/-- A 200 response with the JSON body `{data: [{id: 1, name: "Ping"}]}`. -/
def servicesOk200 : Response where
  status := 200
  statusText := "OK"
  contentType := some "application/json; charset=utf-8"
  text := .ok "\x7b\"data\":[\x7b\"id\":1,\"name\":\"Ping\"\x7d]\x7d"
  json := .ok (.obj [("data", .arr [.obj [("id", .num 1), ("name", .str "Ping")]])])

/-- A 404 response with the JSON body `{detail: "Service not found"}`. -/
def notFound404 : Response where
  status := 404
  statusText := "Not Found"
  contentType := some "application/json"
  text := .ok "\x7b\"detail\":\"Service not found\"\x7d"
  json := .ok (strObj [("detail", "Service not found")])

/-- A 502 response of a proxy: an HTML page, with an empty or a given text. -/
def badGateway502 (text : String) : Response where
  status := 502
  statusText := "Bad Gateway"
  contentType := some "text/html"
  text := .ok text
  json := .error ⟨.syntaxError, "Unexpected token < in JSON at position 0"⟩

/-- A 204 response without a `content-type` header. -/
def noContent204 : Response where
  status := 204
  statusText := "No Content"
  contentType := none
  text := .ok ""
  json := .error ⟨.syntaxError, "Unexpected end of JSON input"⟩

/-- A 200 response that declares JSON and carries a body that is not JSON. -/
def brokenJson200 : Response where
  status := 200
  statusText := "OK"
  contentType := some "application/json"
  text := .ok "<html>"
  json := .error ⟨.syntaxError, "Unexpected token < in JSON at position 0"⟩

/-- A 503 response to the logout request, with a plain-text body. -/
def unavailable503 : Response where
  status := 503
  statusText := "Service Unavailable"
  contentType := some "text/plain"
  text := .ok "try later"
  json := .error ⟨.syntaxError, "Unexpected token t in JSON at position 0"⟩

/-- A 500 response whose JSON body is `{message: "Invalid token format"}`. -/
def invalidToken500 : Response where
  status := 500
  statusText := "Internal Server Error"
  contentType := some "application/json"
  text := .ok "\x7b\"message\":\"Invalid token format\"\x7d"
  json := .ok (.obj [("message", .str "Invalid token format")])

/-- A storage that holds the marker and one other key. -/
def loggedInStorage : Storage :=
  [("theme", "dark"), ("isLoggedIn", "true")]

/-- A storage whose key `isLoggedIn` holds the empty string. -/
def emptyMarkerStorage : Storage :=
  [("isLoggedIn", "")]

/-- The state of a page shown to a logged-in user. -/
def loggedInPage : PageState where
  storage := loggedInStorage
  isAuthenticated := true
  location := "/details/7"
  error := ""
  services := []
  toasts := []

/-- The error that `apiCall` throws on a 401 or 403 with a JSON body. -/
def unauthorizedError : JsError :=
  ⟨.error, "Unauthorized. Please login again."⟩

/-- A 500 response whose JSON body is `{message: []}`: the empty array is
truthy and prints as the empty string. -/
def emptyMessage500 : Response where
  status := 500
  statusText := "Internal Server Error"
  contentType := some "application/json"
  text := .ok "\x7b\"message\":[]\x7d"
  json := .ok (.obj [("message", .arr [])])

/-- The state of the Logs page of a logged-in user before a load. -/
def logsPageBefore : RowsPage where
  page := loggedInPage
  serviceName := .str ""
  rows := [.obj [("id", .num 3)]]

/-- Three samples, the latest first. -/
def sampleLatencies : List LatencySample :=
  [⟨1730000120000, .num 95⟩, ⟨1730000000000, .num 120⟩, ⟨1730000060000, .num 80⟩]

/-- A clock for the examples: the time value written in decimal. -/
def plainLabel (t : Int) : String :=
  toString t

/-- The time values of the two timestamps of the examples. -/
def exampleTimeValue (s : String) : Option Int :=
  if s = "2024-10-27T03:33:20Z" then some 1730000000000
  else if s = "2024-10-27T05:38:25Z" then some 1730007505000
  else none

/-- The time values of the first instant of the range of `Date` and of the
instant one millisecond before its last. -/
def extremeTimeValue (s : String) : Option Int :=
  if s = "-271821-04-20T00:00:00.000Z" then some (-8640000000000000)
  else if s = "+275760-09-12T23:59:59.999Z" then some 8639999999999999
  else none

/-- A service record of the older shape: a `status` and no `is_healthy`. -/
def statusOnlyService : List (String × JsValue) :=
  [("id", .num 7), ("name", .str "Ping"), ("status", .str "up")]

/-- The outcomes of `JSON.parse` on the texts that occur in the examples. On
any other text the table answers with the SyntaxError of an input that ends
too early, which is the outcome for a text of white space only; no example
uses another text. -/
def exampleParse (text : String) : Except JsError JsValue :=
  if text = "\x7b\x7d" then .ok (.obj [])
  else if text = "null" then .ok .null
  else if text = "5" then .ok (.num 5)
  else if text = "\x7b\n  \"Accept\": \"text/plain\"\n\x7d" then
    .ok (.obj [("Accept", .str "text/plain")])
  else .error ⟨.syntaxError, "Unexpected end of JSON input"⟩

/-- The outcomes of `JSON.stringify(value, null, 2)` on the values that occur
in the examples; the empty object stands for every other value. -/
def exampleStringify2 (value : JsValue) : String :=
  match value with
  | .obj [("Accept", .str "text/plain")] => "\x7b\n  \"Accept\": \"text/plain\"\n\x7d"
  | _ => "\x7b\x7d"

/-- The function `parseInt` on the integers, which it returns unchanged; the
examples pass it nothing else. -/
def exampleParseInt (value : JsValue) : JsValue :=
  value

/-- The built-in functions at the arguments of the examples. -/
def exampleBuiltins : Builtins where
  parse := exampleParse
  stringify2 := exampleStringify2
  parseInt := exampleParseInt
  validUrl := fun text => text == "https://example.org/health"

/-- The initial form of AddService with a name and a URL typed in. -/
def filledForm : FormData where
  name := .str "Ping"
  http_method := .str "GET"
  url := .str "https://example.org/health"
  request_headers := "\x7b\x7d"
  request_body := ""
  periodic_summary_report := .num 120
  expected_status_code := .num 200
  expected_latency_ms := .num 500
  response_validation := "\x7b\x7d"

/-- A service record as `getService` returns it in `res.data`. -/
def pingConfig : List (String × JsValue) :=
  [("id", .num 7), ("name", .str "Ping"), ("http_method", .str "POST"),
   ("url", .str "https://example.org/health"),
   ("request_headers", .obj [("Accept", .str "text/plain")]),
   ("request_body", .null), ("periodic_summary_report", .num 60),
   ("expected_status_code", .num 204), ("expected_latency_ms", .num 300),
   ("response_validation", .obj [])]

/-- A service record whose headers are `null` and whose report period is 0. -/
def nullHeadersConfig : List (String × JsValue) :=
  [("id", .num 8), ("name", .str "Ping"), ("http_method", .str "GET"),
   ("url", .str "https://example.org/health"), ("request_headers", .null),
   ("request_body", .null), ("periodic_summary_report", .num 0),
   ("expected_status_code", .num 200), ("expected_latency_ms", .num 500),
   ("response_validation", .obj [])]

/-- The filled form with `null` typed into the headers field. -/
def nullHeadersForm : FormData :=
  { filledForm with request_headers := "null" }

/-- The filled form with one space typed into the headers field. -/
def blankHeadersForm : FormData :=
  { filledForm with request_headers := " " }

/-- The filled form with one space typed into the body field. -/
def blankBodyForm : FormData :=
  { filledForm with request_body := " " }

/-- A local development base URL. -/
def localBase : String :=
  API_BASE_URL (some "http://localhost:8000")

/-! ## Auxiliary lemmas -/

theorem includesChars_self_append (n t : List Char) :
    includesChars n (n ++ t) = true := by
  cases h : n ++ t with
  | nil =>
    have hn : n = [] := (List.append_eq_nil.mp h).1
    simp [includesChars, hn]
  | cons c cs =>
    have hp : n.isPrefixOf (c :: cs) = true := by
      rw [← h]
      exact List.isPrefixOf_iff_prefix.mpr (List.prefix_append n t)
    simp [includesChars, hp]

theorem includesChars_append_left (n p l : List Char)
    (h : includesChars n l = true) : includesChars n (p ++ l) = true := by
  induction p with
  | nil => simpa using h
  | cons c cs ih => simp [includesChars, ih]

theorem includes_middle (a b c : String) : includes (a ++ b ++ c) b = true := by
  unfold includes
  simp only [String.data_append, List.append_assoc]
  exact includesChars_append_left _ _ _ (includesChars_self_append _ _)

theorem declaresJson_eq_false_iff (contentType : Option String) :
    declaresJson contentType = false ↔
      contentType = none ∨
      ∃ ct, contentType = some ct ∧ includes ct "application/json" = false := by
  cases contentType with
  | none => simp [declaresJson]
  | some ct =>
    by_cases hct : ct = ""
    · subst hct
      have hempty : includes "" "application/json" = false := by decide
      simp [declaresJson, hempty]
    · simp [declaresJson, hct]

theorem throwNewError_str {α : Type} (eng : Engine) (s : String) :
    (throwNewError eng (.str s) : Except JsError α) = .error ⟨.error, s⟩ := rfl

theorem rethrow_error (base s : String) :
    rethrow base ⟨.error, s⟩ = ⟨.error, s⟩ := by
  simp [rethrow]

theorem lookupField_strObj (k : String) (fields : List (String × String)) :
    lookupField k (fields.map (fun entry => (entry.1, JsValue.str entry.2)))
      = (fields.lookup k).map JsValue.str := by
  induction fields with
  | nil => rfl
  | cons entry rest ih =>
    obtain ⟨k', s⟩ := entry
    by_cases hk : k' = k
    · subst hk
      simp [lookupField, List.lookup]
    · have hk' : (k == k') = false := by
        simpa using fun h => hk h.symm
      simp [lookupField, List.lookup, hk, hk', ih]

theorem getItem_removeItem (st : Storage) (k : String) :
    getItem (removeItem st k) k = none := by
  induction st with
  | nil => rfl
  | cons entry rest ih =>
    obtain ⟨k', v⟩ := entry
    by_cases hk : k' = k
    · subst hk
      simpa [removeItem, List.filter] using ih
    · have hne : (k' != k) = true := by simpa using hk
      simp only [removeItem, List.filter, hne, getItem, hk, if_false]
      exact ih

theorem getAccessToken_removeAccessToken (st : Storage) :
    getAccessToken (removeAccessToken st) = none := by
  simp [getAccessToken, removeAccessToken, getItem_removeItem]

/-! ## The dispatcher: authorization errors -/

/-- C1 (as stated, refuted): a 401 response that does not declare JSON makes
`apiCall` throw the response text, not the fixed authorization message. -/
theorem apiCall_unauthorized_plain_text_counterexample :
    plainText401.status = 401 ∧
    apiCall v8 localBase (.ok plainText401) = .error ⟨.error, "Session expired"⟩ ∧
    apiCall v8 localBase (.ok plainText401)
      ≠ .error ⟨.error, "Unauthorized. Please login again."⟩ := by
  refine ⟨rfl, rfl, ?_⟩
  intro h
  have h2 : (Except.error ⟨.error, "Session expired"⟩ : Except JsError JsValue)
      = .error ⟨.error, "Unauthorized. Please login again."⟩ := h
  simp at h2

/-- C1 (amended): for every response with status 401 or 403 that declares a
JSON content type and whose body parses as JSON, whatever the parsed value,
`apiCall` throws an `Error` whose message is exactly
"Unauthorized. Please login again.". -/
theorem apiCall_unauthorized_json (eng : Engine) (base : String) (r : Response)
    (data : JsValue) (hs : r.status = 401 ∨ r.status = 403)
    (hj : declaresJson r.contentType = true) (hd : r.json = .ok data) :
    apiCall eng base (.ok r) = .error ⟨.error, "Unauthorized. Please login again."⟩ := by
  have hok : r.ok = false := by
    rcases hs with h | h <;> simp [Response.ok, h]
  simp [apiCall, apiCallTry, hj, hd, hok, hs, throwNewError_str, rethrow_error]

/-- Witness of `apiCall_unauthorized_json`: the 401 response with the body
`{error: "bad credentials"}`. -/
theorem apiCall_unauthorized_json_witness :
    apiCall v8 localBase (.ok badCredentials401)
      = .error ⟨.error, "Unauthorized. Please login again."⟩ :=
  apiCall_unauthorized_json v8 localBase badCredentials401
    (.obj [("error", .str "bad credentials")]) (Or.inl rfl) rfl rfl

/-- C2 (as stated, refuted): on the 401 response with the JSON body
`{error: "bad credentials"}`, `login` throws the body's `error` text, not the
fixed authorization message. -/
theorem login_bad_credentials_counterexample :
    login v8 localBase [] (.ok badCredentials401)
      = ([], .error ⟨.error, "bad credentials"⟩) ∧
    (login v8 localBase [] (.ok badCredentials401)).2
      ≠ .error ⟨.error, "Unauthorized. Please login again."⟩ := by
  refine ⟨rfl, ?_⟩
  intro h
  have h2 : (Except.error ⟨.error, "bad credentials"⟩ : Except JsError JsValue)
      = .error ⟨.error, "Unauthorized. Please login again."⟩ := h
  simp at h2

/-- C2 (amended): for every response to the login request that has status 401,
declares JSON and whose parsed body is an object with string-valued fields,
`login` throws the body's `message` if present and non-empty, else its `error`
if present and non-empty, else "Login failed: 401 <statusText>", and leaves
the storage as it was. -/
theorem login_unauthorized_message (eng : Engine) (base : String) (st : Storage)
    (r : Response) (fields : List (String × String)) (hs : r.status = 401)
    (hj : declaresJson r.contentType = true) (hd : r.json = .ok (strObj fields)) :
    login eng base st (.ok r) = (st, .error ⟨.error,
      (nonEmptyField fields "message").getD
        ((nonEmptyField fields "error").getD
          ("Login failed: 401 " ++ r.statusText))⟩) := by
  have hok : r.ok = false := by simp [Response.ok, hs]
  have hline : "Login failed: " ++ toString 401 ++ " " ++ r.statusText
      = "Login failed: 401 " ++ r.statusText := by
    have h0 : "Login failed: " ++ toString 401 ++ " " = "Login failed: 401 " := by decide
    rw [String.append_assoc, String.append_assoc, ← String.append_assoc "Login failed: ",
      ← String.append_assoc, h0]
  simp only [login, loginTry, hj, hd, hok, hs, strObj, getProp, lookupField_strObj,
    nonEmptyField, if_true, Bool.not_false]
  cases hm : fields.lookup "message" with
  | some m =>
    by_cases hm0 : m = ""
    · cases he : fields.lookup "error" with
      | some e =>
        by_cases he0 : e = "" <;>
          simp [hm0, he0, orElse, truthy, bind, Except.bind, throwNewError_str,
            rethrow_error, hline]
      | none =>
        simp [hm0, orElse, truthy, bind, Except.bind, throwNewError_str, rethrow_error,
          hline]
    · simp [hm0, orElse, truthy, bind, Except.bind, throwNewError_str, rethrow_error]
  | none =>
    cases he : fields.lookup "error" with
    | some e =>
      by_cases he0 : e = "" <;>
        simp [he0, orElse, truthy, bind, Except.bind, throwNewError_str, rethrow_error,
          hline]
    | none =>
      simp [orElse, truthy, bind, Except.bind, throwNewError_str, rethrow_error, hline]

/-- Witness of `login_unauthorized_message`: the wrong-credentials scenario. -/
theorem login_unauthorized_message_witness :
    login v8 localBase [] (.ok badCredentials401)
      = ([], .error ⟨.error, "bad credentials"⟩) :=
  login_unauthorized_message v8 localBase [] badCredentials401
    [("error", "bad credentials")] rfl rfl rfl

/-! ## The dispatcher: application errors -/

theorem orElse_strField (fields : List (String × String)) (k : String)
    (next : Except JsError JsValue) :
    orElse (((fields.lookup k).map JsValue.str).getD .undefined) next
      = match nonEmptyField fields k with
        | some s => .ok (.str s)
        | none => next := by
  unfold nonEmptyField
  cases h : fields.lookup k with
  | none => simp [orElse, truthy]
  | some s => by_cases hs : s = "" <;> simp [orElse, truthy, hs]

/-- C3: for every response that declares JSON, has a non-2xx status other than
401 and 403, and whose parsed body is an object with string-valued fields,
`apiCall` throws the body's `message` if present and non-empty, else its
`error` if present and non-empty, else its `detail` if present and non-empty,
else "Request failed: <status> <statusText>". -/
theorem apiCall_error_message_priority (eng : Engine) (base : String) (r : Response)
    (fields : List (String × String)) (hj : declaresJson r.contentType = true)
    (hd : r.json = .ok (strObj fields)) (hok : r.ok = false)
    (h401 : r.status ≠ 401) (h403 : r.status ≠ 403) :
    apiCall eng base (.ok r) = .error ⟨.error,
      (nonEmptyField fields "message").getD
        ((nonEmptyField fields "error").getD
          ((nonEmptyField fields "detail").getD
            ("Request failed: " ++ toString r.status ++ " " ++ r.statusText)))⟩ := by
  simp only [apiCall, apiCallTry, hj, hd, hok, h401, h403, strObj, getProp,
    lookupField_strObj, bind, Except.bind, orElse_strField, if_true, Bool.not_false,
    or_self, if_false]
  cases nonEmptyField fields "message" <;> cases nonEmptyField fields "error" <;>
    cases nonEmptyField fields "detail" <;>
    simp [throwNewError_str, rethrow_error]

/-- Witness of `apiCall_error_message_priority`: a 404 whose body carries only
`detail`. -/
theorem apiCall_error_message_priority_witness :
    apiCall v8 localBase (.ok notFound404) = .error ⟨.error, "Service not found"⟩ :=
  apiCall_error_message_priority v8 localBase notFound404
    [("detail", "Service not found")] rfl rfl rfl (by decide) (by decide)

/-- C4 (the code at the failing input): on a 500 response whose JSON body is
`null`, reading `data.message` raises a TypeError, which the `catch` block of
`apiCall` turns into a "Network error: ..." message under every engine; the
status-line fallback "Request failed: 500 Internal Server Error" is not
thrown. -/
theorem apiCall_null_body_network_error (eng : Engine) :
    (∃ m, apiCall eng localBase (.ok nullBody500)
      = .error ⟨.error, "Network error: " ++ m⟩) ∧
    apiCall eng localBase (.ok nullBody500)
      ≠ .error ⟨.error, "Request failed: 500 Internal Server Error"⟩ := by
  have hval : apiCall eng localBase (.ok nullBody500)
      = .error (rethrow localBase ⟨.typeError, eng.readOfNullish "message"⟩) := rfl
  have hex : ∃ m, rethrow localBase ⟨.typeError, eng.readOfNullish "message"⟩
      = ⟨.error, "Network error: " ++ m⟩ := by
    by_cases hf : includes (eng.readOfNullish "message") "fetch" = true
    · refine ⟨"Unable to connect to the server at " ++ localBase ++
        ". Please check if the API server is running.", ?_⟩
      simp only [rethrow, hf, if_true]
      decide
    · exact ⟨_, by simp only [rethrow, hf, if_true]; rfl⟩
  obtain ⟨m, hm⟩ := hex
  rw [hval, hm]
  refine ⟨⟨m, rfl⟩, ?_⟩
  intro h
  have h2 : ("Network error: " ++ m).data
      = "Request failed: 500 Internal Server Error".data := by
    simpa using congrArg String.data (congrArg JsError.message (Except.error.inj h))
  rw [String.data_append] at h2
  have h3 : ("Network error: ".data ++ m.data).head? = some 'N' := rfl
  rw [h2] at h3
  revert h3
  decide

/-- The part of C4 that holds: a body that parses to an array, a string, a
number or a boolean has no `message`, `error` or `detail`, and `apiCall`
throws the status-line fallback. -/
theorem apiCall_non_object_body_fallback (eng : Engine) (base : String) (r : Response)
    (data : JsValue) (hj : declaresJson r.contentType = true) (hd : r.json = .ok data)
    (hok : r.ok = false) (h401 : r.status ≠ 401) (h403 : r.status ≠ 403)
    (hshape : (∃ items, data = .arr items) ∨ (∃ s, data = .str s) ∨
      (∃ n, data = .num n) ∨ (∃ b, data = .bool b)) :
    apiCall eng base (.ok r) = .error ⟨.error,
      "Request failed: " ++ toString r.status ++ " " ++ r.statusText⟩ := by
  rcases hshape with ⟨x, rfl⟩ | ⟨x, rfl⟩ | ⟨x, rfl⟩ | ⟨x, rfl⟩ <;>
    simp [apiCall, apiCallTry, hj, hd, hok, h401, h403, getProp, bind, Except.bind,
      orElse, truthy, throwNewError_str, rethrow_error]

/-! ## The dispatcher: successful responses -/

/-- C5: for every response that declares a JSON content type and has a 2xx
status, `apiCall` returns the parsed body unchanged. -/
theorem apiCall_json_success (eng : Engine) (base : String) (r : Response)
    (data : JsValue) (hj : declaresJson r.contentType = true) (hd : r.json = .ok data)
    (hok : r.ok = true) :
    apiCall eng base (.ok r) = .ok data := by
  simp [apiCall, apiCallTry, hj, hd, hok]

/-- Witness of `apiCall_json_success`: the list-services response. -/
theorem apiCall_json_success_witness :
    apiCall v8 localBase (.ok servicesOk200)
      = .ok (.obj [("data", .arr [.obj [("id", .num 1), ("name", .str "Ping")]])]) :=
  apiCall_json_success v8 localBase servicesOk200 _ rfl rfl rfl

/-! ## The dispatcher: responses that do not declare JSON -/

/-- C6: for every response that does not declare a JSON content type and has
a non-2xx status, `apiCall` throws the response text when it is non-empty and
"HTTP <status>: <statusText>" when it is empty. -/
theorem apiCall_text_failure (eng : Engine) (base : String) (r : Response)
    (text : String) (hj : declaresJson r.contentType = false) (ht : r.text = .ok text)
    (hok : r.ok = false) :
    apiCall eng base (.ok r) = .error ⟨.error,
      if text = "" then "HTTP " ++ toString r.status ++ ": " ++ r.statusText
      else text⟩ := by
  by_cases h : text = "" <;>
    simp [apiCall, apiCallTry, hj, ht, hok, h, throwNewError_str, rethrow_error]

/-- Witness of `apiCall_text_failure`: a 502 page with an empty text, and one
with a text. -/
theorem apiCall_text_failure_witness :
    apiCall v8 localBase (.ok (badGateway502 ""))
      = .error ⟨.error, "HTTP 502: Bad Gateway"⟩ ∧
    apiCall v8 localBase (.ok (badGateway502 "upstream down"))
      = .error ⟨.error, "upstream down"⟩ :=
  ⟨apiCall_text_failure v8 localBase (badGateway502 "") "" rfl rfl rfl,
   apiCall_text_failure v8 localBase (badGateway502 "upstream down") "upstream down"
     rfl rfl rfl⟩

/-- C7: for every response that does not declare a JSON content type (header
missing or not containing "application/json") and has a 2xx status, `apiCall`
returns exactly `{success: true, message: <text>}`; the outcome of `json()`
plays no part, whatever it would be. -/
theorem apiCall_text_success (eng : Engine) (base : String) (r : Response)
    (text : String) (hj : declaresJson r.contentType = false) (ht : r.text = .ok text)
    (hok : r.ok = true) (parsed : Except JsError JsValue) :
    apiCall eng base (.ok { r with json := parsed })
      = .ok (.obj [("success", .bool true), ("message", .str text)]) := by
  have hrange : 200 ≤ r.status ∧ r.status ≤ 299 := by
    simpa [Response.ok] using hok
  simp [apiCall, apiCallTry, hj, ht, Response.ok, hrange.1, hrange.2]

/-- Witness of `apiCall_text_success`: a 204 without a content type, whose
body would not parse. -/
theorem apiCall_text_success_witness :
    apiCall v8 localBase (.ok noContent204)
      = .ok (.obj [("success", .bool true), ("message", .str "")]) :=
  apiCall_text_success v8 localBase noContent204 "" rfl rfl rfl noContent204.json

/-! ## The dispatcher: transport and parse failures -/

/-- C8: when `fetch` rejects with a TypeError of message `m`: if `m` contains
"fetch", `apiCall` throws "Network error: Unable to connect to the server at
<API_BASE_URL>. Please check if the API server is running.", a message that
contains the base URL; otherwise it throws "Network error: " followed by `m`
unchanged. -/
theorem apiCall_transport_failure (eng : Engine) (env : Option String) (m : String) :
    (includes m "fetch" = true →
      apiCall eng (API_BASE_URL env) (.error ⟨.typeError, m⟩)
        = .error ⟨.error, "Network error: Unable to connect to the server at "
            ++ API_BASE_URL env ++ ". Please check if the API server is running."⟩ ∧
      includes ("Network error: Unable to connect to the server at "
            ++ API_BASE_URL env ++ ". Please check if the API server is running.")
          (API_BASE_URL env) = true) ∧
    (includes m "fetch" = false →
      apiCall eng (API_BASE_URL env) (.error ⟨.typeError, m⟩)
        = .error ⟨.error, "Network error: " ++ m⟩) := by
  refine ⟨fun hf => ⟨?_, includes_middle _ _ _⟩, fun hf => ?_⟩ <;>
    simp [apiCall, apiCallTry, rethrow, hf]

/-- Witness of `apiCall_transport_failure`: the browser's "Failed to fetch",
and a TypeError of another text. -/
theorem apiCall_transport_failure_witness :
    (apiCall v8 localBase (.error ⟨.typeError, "Failed to fetch"⟩)
        = .error ⟨.error, "Network error: Unable to connect to the server at "
            ++ localBase ++ ". Please check if the API server is running."⟩ ∧
      includes ("Network error: Unable to connect to the server at "
            ++ localBase ++ ". Please check if the API server is running.")
          localBase = true) ∧
    apiCall v8 localBase (.error ⟨.typeError, "Load failed"⟩)
      = .error ⟨.error, "Network error: Load failed"⟩ :=
  ⟨(apiCall_transport_failure v8 (some "http://localhost:8000") "Failed to fetch").1 rfl,
   (apiCall_transport_failure v8 (some "http://localhost:8000") "Load failed").2 rfl⟩

/-- C9: for every response that declares JSON and whose body is not valid
JSON, whatever its status, `apiCall` rejects with the parser's own
SyntaxError, its class and message unchanged. -/
theorem apiCall_parse_error_propagates (eng : Engine) (base : String) (r : Response)
    (e : JsError) (hj : declaresJson r.contentType = true) (hd : r.json = .error e)
    (hk : e.kind = .syntaxError) :
    apiCall eng base (.ok r) = .error e := by
  simp [apiCall, apiCallTry, hj, hd, rethrow, hk]

/-- Witness of `apiCall_parse_error_propagates`: a 200 response that declares
JSON and carries HTML. -/
theorem apiCall_parse_error_propagates_witness :
    apiCall v8 localBase (.ok brokenJson200)
      = .error ⟨.syntaxError, "Unexpected token < in JSON at position 0"⟩ :=
  apiCall_parse_error_propagates v8 localBase brokenJson200 _ rfl rfl rfl

/-! ## Logout -/

theorem logout_storage (eng : Engine) (base : String) (st : Storage)
    (fetched : Except JsError Response) :
    (logout eng base st fetched).1 = removeAccessToken st ∨
    (logout eng base st fetched).1 = removeAccessToken (removeAccessToken st) := by
  unfold logout logoutTry
  cases fetched with
  | error e => left; rfl
  | ok response =>
    dsimp only
    by_cases hok : response.ok = true
    · by_cases hj : declaresJson response.contentType = true
      · cases hjson : response.json with
        | error e => right; simp [hok, hj, hjson]
        | ok v => left; simp [hok, hj, hjson]
      · left; simp [hok, hj]
    · right
      simp only [hok, Bool.not_false, Bool.not_true, if_true]
      simp only [throwNewError]
      cases newError eng (logoutErrorMessage eng response) <;> rfl

/-- C10: for every outcome of the logout request (a 2xx response, a non-2xx
response, a body that fails to parse, a transport failure) and every prior
storage, after `logout` has settled the key `isLoggedIn` is absent and
`getAccessToken` returns `null`. -/
theorem logout_clears_marker (eng : Engine) (base : String) (st : Storage)
    (fetched : Except JsError Response) :
    getItem (logout eng base st fetched).1 "isLoggedIn" = none ∧
    getAccessToken (logout eng base st fetched).1 = none := by
  rcases logout_storage eng base st fetched with h | h <;> rw [h] <;>
    exact ⟨getItem_removeItem _ _, getAccessToken_removeAccessToken _⟩

/-! ## The session marker -/

theorem getItem_setItem (st : Storage) (k v : String) :
    getItem (setItem st k v) k = some v := by
  induction st with
  | nil => simp [setItem, getItem]
  | cons entry rest ih =>
    obtain ⟨k', v'⟩ := entry
    by_cases hk : k' = k
    · simp [setItem, getItem, hk]
    · simp [setItem, getItem, hk, ih]

theorem setItem_setItem (st : Storage) (k v : String) :
    setItem (setItem st k v) k v = setItem st k v := by
  induction st with
  | nil => simp [setItem]
  | cons entry rest ih =>
    obtain ⟨k', v'⟩ := entry
    by_cases hk : k' = k
    · simp [setItem, hk]
    · simp [setItem, hk, ih]

theorem removeItem_removeItem (st : Storage) (k : String) :
    removeItem (removeItem st k) k = removeItem st k := by
  simp [removeItem, List.filter_filter]

theorem throwNewError_error {α : Type} (eng : Engine) (v : JsValue) :
    ∃ e, (throwNewError eng v : Except JsError α) = .error e := by
  unfold throwNewError
  cases newError eng v with
  | error e => exact ⟨e, rfl⟩
  | ok e => exact ⟨e, rfl⟩

/-- C11 (as stated, refuted): on a 503 response and on a transport failure,
`logout` clears the marker and then throws. -/
theorem logout_failure_counterexample :
    logout v8 localBase loggedInStorage (.ok unavailable503)
      = ([("theme", "dark")],
         .error ⟨.error, "Logout failed: 503 Service Unavailable"⟩) ∧
    logout v8 localBase loggedInStorage (.error ⟨.typeError, "Failed to fetch"⟩)
      = ([("theme", "dark")],
         .error ⟨.error, "Network error: Unable to connect to the server at "
           ++ "http://localhost:8000/api. Please check if the API server is running."⟩) :=
  ⟨rfl, rfl⟩

theorem logoutErrorMessage_status_line (eng : Engine) (r : Response)
    (h : declaresJson r.contentType = false ∨ (∃ e, r.json = .error e) ∨
      (∃ data, r.json = .ok data ∧ ∀ fields, data ≠ .obj fields)) :
    logoutErrorMessage eng r
      = .str ("Logout failed: " ++ toString r.status ++ " " ++ r.statusText) := by
  unfold logoutErrorMessage
  by_cases hj : declaresJson r.contentType = true
  · rcases h with h | ⟨e, he⟩ | ⟨data, hd, hno⟩
    · simp [hj] at h
    · simp [hj, he]
    · simp only [hj, hd, if_true]
      cases data with
      | obj fields => exact absurd rfl (hno fields)
      | undefined => rfl
      | null => rfl
      | bool b => rfl
      | num n => rfl
      | str t => rfl
      | arr items => rfl
  · simp [hj]

theorem logoutErrorMessage_strObj (eng : Engine) (r : Response)
    (fields : List (String × String)) (hj : declaresJson r.contentType = true)
    (hd : r.json = .ok (strObj fields)) :
    logoutErrorMessage eng r
      = .str ((nonEmptyField fields "message").getD
          ((nonEmptyField fields "error").getD
            ("Logout failed: " ++ toString r.status ++ " " ++ r.statusText))) := by
  simp only [logoutErrorMessage, hj, hd, strObj, getProp, lookupField_strObj, bind,
    Except.bind, orElse_strField, if_true]
  cases nonEmptyField fields "message" <;> cases nonEmptyField fields "error" <;> rfl

theorem logout_rejects_with (eng : Engine) (base : String) (st : Storage) (r : Response)
    (text : String) (hok : r.ok = false) (hm : logoutErrorMessage eng r = .str text) :
    logout eng base st (.ok r) = (removeAccessToken st, .error ⟨.error, text⟩) := by
  simp [logout, logoutTry, hok, hm, throwNewError_str, rethrow_error, removeAccessToken,
    removeItem_removeItem]

theorem rethrow_cases (base : String) (e : JsError) :
    (e.kind ≠ .typeError → rethrow base e = e) ∧
    (e.kind = .typeError → ∃ m, rethrow base e = ⟨.error, "Network error: " ++ m⟩) := by
  constructor
  · intro h
    simp [rethrow, h]
  · intro h
    by_cases hf : includes e.message "fetch" = true
    · refine ⟨"Unable to connect to the server at " ++ base ++
        ". Please check if the API server is running.", ?_⟩
      have h0 : "Network error: Unable to connect to the server at "
          = "Network error: " ++ "Unable to connect to the server at " := by decide
      simp only [rethrow, h, hf, if_true, h0, String.append_assoc]
    · exact ⟨e.message, by simp [rethrow, h, hf]⟩

/-- C11 (amended): for every non-2xx response and every transport failure of
the logout request, `logout` clears the marker and then throws, its promise
rejecting. On a transport failure it rejects with the caught error as the
`catch` block throws it again: a TypeError as an `Error` whose message starts
with "Network error: ", any other error unchanged. On a non-2xx response that
does not declare JSON, or whose body fails to parse or parses to a value that
is not an object, it rejects with "Logout failed: <status> <statusText>". On
a non-2xx response whose JSON body is an object with string-valued fields it
rejects with the body's `message` if present and non-empty, else its `error`
if present and non-empty, else "Logout failed: <status> <statusText>". -/
theorem logout_failure_throws (eng : Engine) (base : String) (st : Storage)
    (fetched : Except JsError Response)
    (hfail : ∀ r, fetched = .ok r → r.ok = false) :
    (∃ e, logout eng base st fetched = (removeAccessToken st, .error e)) ∧
    getAccessToken (removeAccessToken st) = none ∧
    (∀ e, fetched = .error e →
      logout eng base st fetched = (removeAccessToken st, .error (rethrow base e)) ∧
      (e.kind ≠ .typeError → rethrow base e = e) ∧
      (e.kind = .typeError → ∃ m, rethrow base e = ⟨.error, "Network error: " ++ m⟩)) ∧
    (∀ r, fetched = .ok r →
      (declaresJson r.contentType = false ∨ (∃ e, r.json = .error e) ∨
        (∃ data, r.json = .ok data ∧ ∀ fields, data ≠ .obj fields)) →
      logout eng base st fetched
        = (removeAccessToken st, .error ⟨.error,
            "Logout failed: " ++ toString r.status ++ " " ++ r.statusText⟩)) ∧
    (∀ r fields, fetched = .ok r → declaresJson r.contentType = true →
      r.json = .ok (strObj fields) →
      logout eng base st fetched
        = (removeAccessToken st, .error ⟨.error,
            (nonEmptyField fields "message").getD
              ((nonEmptyField fields "error").getD
                ("Logout failed: " ++ toString r.status ++ " " ++ r.statusText))⟩)) := by
  refine ⟨?_, getAccessToken_removeAccessToken st, ?_, ?_, ?_⟩
  · cases fetched with
    | error e => exact ⟨rethrow base e, rfl⟩
    | ok r =>
      have hok : r.ok = false := hfail r rfl
      obtain ⟨e, he⟩ :=
        throwNewError_error (α := JsValue) eng (logoutErrorMessage eng r)
      refine ⟨rethrow base e, ?_⟩
      simp [logout, logoutTry, hok, he, removeAccessToken, removeItem_removeItem]
  · intro e he
    subst he
    exact ⟨rfl, rethrow_cases base e⟩
  · intro r hr hshape
    subst hr
    exact logout_rejects_with eng base st r _ (hfail r rfl)
      (logoutErrorMessage_status_line eng r hshape)
  · intro r fields hr hj hd
    subst hr
    exact logout_rejects_with eng base st r _ (hfail r rfl)
      (logoutErrorMessage_strObj eng r fields hj hd)

/-- Witness of `logout_failure_throws`: the 503 response, which does not
declare JSON. -/
theorem logout_failure_throws_witness :
    logout v8 localBase loggedInStorage (.ok unavailable503)
      = (removeAccessToken loggedInStorage, .error ⟨.error,
          "Logout failed: " ++ toString unavailable503.status ++ " "
            ++ unavailable503.statusText⟩) :=
  (logout_failure_throws v8 localBase loggedInStorage (.ok unavailable503)
    (fun r hr => by cases hr; rfl)).2.2.2.1 unavailable503 rfl (Or.inl rfl)

/-- C12: for every storage, `getAccessToken` after `setLoginFlag` yields the
truthy value "true", `getAccessToken` after `removeAccessToken` yields `null`,
and each of the two operations applied twice leaves the same storage as
applied once. -/
theorem marker_set_clear_idempotent (st : Storage) :
    getAccessToken (setLoginFlag st) = some "true" ∧
    AuthProvider.seed (setLoginFlag st) = true ∧
    getAccessToken (removeAccessToken st) = none ∧
    AuthProvider.seed (removeAccessToken st) = false ∧
    setLoginFlag (setLoginFlag st) = setLoginFlag st ∧
    removeAccessToken (removeAccessToken st) = removeAccessToken st := by
  have hset : getAccessToken (setLoginFlag st) = some "true" := by
    simp [getAccessToken, setLoginFlag, getItem_setItem]
  refine ⟨hset, ?_, getAccessToken_removeAccessToken st, ?_, ?_, ?_⟩
  · simp [AuthProvider.seed, hset]
  · simp [AuthProvider.seed, getAccessToken_removeAccessToken]
  · exact setItem_setItem st _ _
  · exact removeItem_removeItem st _

/-- C13 (as stated, refuted): in a storage whose key `isLoggedIn` holds the
empty string the key is present, yet `getAccessToken` returns `null` and the
provider seeds `isAuthenticated` to false. -/
theorem getAccessToken_empty_marker_counterexample :
    getItem emptyMarkerStorage "isLoggedIn" = some "" ∧
    getAccessToken emptyMarkerStorage = none ∧
    AuthProvider.seed emptyMarkerStorage = false :=
  ⟨rfl, rfl, rfl⟩

/-- C13 (amended): for every storage, `getAccessToken` returns a non-null
value, and `AuthProvider` seeds `isAuthenticated` to true, if and only if the
key `isLoggedIn` is present with a non-empty value; the value returned is then
the stored one. -/
theorem getAccessToken_iff_nonempty_marker (st : Storage) :
    (∀ v, getAccessToken st = some v ↔ (getItem st "isLoggedIn" = some v ∧ v ≠ "")) ∧
    (AuthProvider.seed st = true ↔ ∃ v, getItem st "isLoggedIn" = some v ∧ v ≠ "") := by
  unfold AuthProvider.seed getAccessToken
  cases h : getItem st "isLoggedIn" with
  | none => simp
  | some w =>
    by_cases hw : w = ""
    · subst hw
      simp
    · constructor
      · intro v
        simp only [bne_iff_ne, ne_eq, hw, not_false_eq_true, if_true, Option.some.injEq]
        constructor
        · intro hv
          subst hv
          exact ⟨rfl, hw⟩
        · intro hv
          exact hv.1
      · simp [hw]

/-! ## Login and signup -/

theorem loginTry_outcome (eng : Engine) (st : Storage) (fetched : Except JsError Response) :
    (∃ r data, fetched = .ok r ∧ declaresJson r.contentType = true ∧ r.ok = true ∧
        r.json = .ok data ∧ loginTry eng st fetched = (setLoginFlag st, .ok data)) ∨
    (∃ e, loginTry eng st fetched = (st, .error e) ∧
      ∀ r, fetched = .ok r →
        r.ok = false ∨ declaresJson r.contentType = false ∨ ∃ e', r.json = .error e') := by
  cases fetched with
  | error e => exact Or.inr ⟨e, rfl, fun r hr => by cases hr⟩
  | ok r =>
    by_cases hj : declaresJson r.contentType = true
    · cases hd : r.json with
      | error e =>
        refine Or.inr ⟨e, by simp [loginTry, hj, hd], fun r' hr => ?_⟩
        cases hr
        exact Or.inr (Or.inr ⟨e, hd⟩)
      | ok data =>
        by_cases hok : r.ok = true
        · exact Or.inl ⟨r, data, rfl, hj, hok, hd, by simp [loginTry, hj, hd, hok]⟩
        · have hok' : r.ok = false := by simpa using hok
          have hfail : ∀ r', (Except.ok r : Except JsError Response) = .ok r' →
              r'.ok = false ∨ declaresJson r'.contentType = false ∨
                ∃ e', r'.json = .error e' := by
            intro r' hr
            cases hr
            exact Or.inl hok'
          simp only [loginTry, hj, hd, hok', if_true, Bool.not_false]
          split
          · next e _ => exact Or.inr ⟨e, rfl, hfail⟩
          · next v _ =>
            obtain ⟨e, he⟩ := throwNewError_error (α := JsValue) eng v
            exact Or.inr ⟨e, by rw [he], hfail⟩
    · have hj' : declaresJson r.contentType = false := by simpa using hj
      have hfail : ∀ r', (Except.ok r : Except JsError Response) = .ok r' →
          r'.ok = false ∨ declaresJson r'.contentType = false ∨
            ∃ e', r'.json = .error e' := by
        intro r' hr
        cases hr
        exact Or.inr (Or.inl hj')
      cases ht : r.text with
      | error e => exact Or.inr ⟨e, by simp [loginTry, hj', ht], hfail⟩
      | ok text =>
        obtain ⟨e, he⟩ := throwNewError_error (α := JsValue) eng
          (if text != "" then .str text
           else .str ("HTTP " ++ toString r.status ++ ": " ++ r.statusText))
        refine Or.inr ⟨e, ?_, hfail⟩
        simp only [loginTry, hj', ht]
        rw [← he]
        rfl

theorem signupTry_outcome (eng : Engine) (st : Storage) (fetched : Except JsError Response) :
    (∃ r data, fetched = .ok r ∧ declaresJson r.contentType = true ∧ r.ok = true ∧
        r.json = .ok data ∧ signupTry eng st fetched = (setLoginFlag st, .ok data)) ∨
    (∃ e, signupTry eng st fetched = (st, .error e) ∧
      ∀ r, fetched = .ok r →
        r.ok = false ∨ declaresJson r.contentType = false ∨ ∃ e', r.json = .error e') := by
  cases fetched with
  | error e => exact Or.inr ⟨e, rfl, fun r hr => by cases hr⟩
  | ok r =>
    by_cases hj : declaresJson r.contentType = true
    · cases hd : r.json with
      | error e =>
        refine Or.inr ⟨e, by simp [signupTry, hj, hd], fun r' hr => ?_⟩
        cases hr
        exact Or.inr (Or.inr ⟨e, hd⟩)
      | ok data =>
        by_cases hok : r.ok = true
        · exact Or.inl ⟨r, data, rfl, hj, hok, hd, by simp [signupTry, hj, hd, hok]⟩
        · have hok' : r.ok = false := by simpa using hok
          have hfail : ∀ r', (Except.ok r : Except JsError Response) = .ok r' →
              r'.ok = false ∨ declaresJson r'.contentType = false ∨
                ∃ e', r'.json = .error e' := by
            intro r' hr
            cases hr
            exact Or.inl hok'
          simp only [signupTry, hj, hd, hok', if_true, Bool.not_false]
          split
          · next e _ => exact Or.inr ⟨e, rfl, hfail⟩
          · next v _ =>
            obtain ⟨e, he⟩ := throwNewError_error (α := JsValue) eng v
            exact Or.inr ⟨e, by rw [he], hfail⟩
    · have hj' : declaresJson r.contentType = false := by simpa using hj
      have hfail : ∀ r', (Except.ok r : Except JsError Response) = .ok r' →
          r'.ok = false ∨ declaresJson r'.contentType = false ∨
            ∃ e', r'.json = .error e' := by
        intro r' hr
        cases hr
        exact Or.inr (Or.inl hj')
      cases ht : r.text with
      | error e => exact Or.inr ⟨e, by simp [signupTry, hj', ht], hfail⟩
      | ok text =>
        obtain ⟨e, he⟩ := throwNewError_error (α := JsValue) eng
          (if text != "" then .str text
           else .str ("HTTP " ++ toString r.status ++ ": " ++ r.statusText))
        refine Or.inr ⟨e, ?_, hfail⟩
        simp only [signupTry, hj', ht]
        rw [← he]
        rfl

/-- C14: `login`, and likewise `signup`, either returns a value and leaves the
storage with the marker set to "true", or throws and leaves the storage exactly
as it was; on a transport failure, a non-2xx response, a response that does
not declare JSON and a body that fails to parse it is the second. -/
theorem login_signup_marker (eng : Engine) (base : String) (st : Storage)
    (fetched : Except JsError Response) :
    ((∃ v, login eng base st fetched = (setLoginFlag st, .ok v)) ∨
      (∃ e, login eng base st fetched = (st, .error e))) ∧
    ((∃ v, signup eng base st fetched = (setLoginFlag st, .ok v)) ∨
      (∃ e, signup eng base st fetched = (st, .error e))) ∧
    getItem (setLoginFlag st) "isLoggedIn" = some "true" ∧
    ((∀ r, fetched = .ok r →
        r.ok = false ∨ declaresJson r.contentType = false ∨ ∃ e, r.json = .error e) →
      (∃ e, login eng base st fetched = (st, .error e)) ∧
      (∃ e, signup eng base st fetched = (st, .error e))) := by
  have hl : (∃ r data, fetched = .ok r ∧ declaresJson r.contentType = true ∧
        r.ok = true ∧ r.json = .ok data ∧
        login eng base st fetched = (setLoginFlag st, .ok data)) ∨
      (∃ e, login eng base st fetched = (st, .error e)) := by
    rcases loginTry_outcome eng st fetched with ⟨r, data, h1, h2, h3, h4, h5⟩ | ⟨e, he, _⟩
    · exact Or.inl ⟨r, data, h1, h2, h3, h4, by simp [login, h5]⟩
    · exact Or.inr ⟨rethrow base e, by simp [login, he]⟩
  have hs : (∃ r data, fetched = .ok r ∧ declaresJson r.contentType = true ∧
        r.ok = true ∧ r.json = .ok data ∧
        signup eng base st fetched = (setLoginFlag st, .ok data)) ∨
      (∃ e, signup eng base st fetched = (st, .error e)) := by
    rcases signupTry_outcome eng st fetched with ⟨r, data, h1, h2, h3, h4, h5⟩ | ⟨e, he, _⟩
    · exact Or.inl ⟨r, data, h1, h2, h3, h4, by simp [signup, h5]⟩
    · exact Or.inr ⟨rethrow base e, by simp [signup, he]⟩
  have hcontra : (∀ r, fetched = .ok r →
        r.ok = false ∨ declaresJson r.contentType = false ∨ ∃ e, r.json = .error e) →
      ¬ ∃ r data, fetched = .ok r ∧ declaresJson r.contentType = true ∧
        r.ok = true ∧ r.json = .ok data := by
    rintro hfail ⟨r, data, h1, h2, h3, h4⟩
    rcases hfail r h1 with h | h | ⟨e, h⟩
    · simp [h3] at h
    · simp [h2] at h
    · simp [h4] at h
  refine ⟨?_, ?_, getItem_setItem st _ _, fun hfail => ⟨?_, ?_⟩⟩
  · rcases hl with ⟨_, data, _, _, _, _, h⟩ | h
    · exact Or.inl ⟨data, h⟩
    · exact Or.inr h
  · rcases hs with ⟨_, data, _, _, _, _, h⟩ | h
    · exact Or.inl ⟨data, h⟩
    · exact Or.inr h
  · rcases hl with ⟨r, data, h1, h2, h3, h4, _⟩ | h
    · exact absurd ⟨r, data, h1, h2, h3, h4⟩ (hcontra hfail)
    · exact h
  · rcases hs with ⟨r, data, h1, h2, h3, h4, _⟩ | h
    · exact absurd ⟨r, data, h1, h2, h3, h4⟩ (hcontra hfail)
    · exact h

/-- Witness of `login_signup_marker`: a transport failure, on which both
calls throw and keep the storage. -/
theorem login_signup_marker_witness :
    (∃ e, login v8 localBase loggedInStorage (.error ⟨.typeError, "Failed to fetch"⟩)
      = (loggedInStorage, .error e)) ∧
    (∃ e, signup v8 localBase loggedInStorage (.error ⟨.typeError, "Failed to fetch"⟩)
      = (loggedInStorage, .error e)) :=
  (login_signup_marker v8 localBase loggedInStorage
    (.error ⟨.typeError, "Failed to fetch"⟩)).2.2.2 (fun r hr => by cases hr)

/-- C15 (as stated, refuted): on the 401 response with the body
`{error: "bad credentials"}` `login` throws "bad credentials" where `apiCall`
throws the authorization message, and on a 204 response without a content type
`signup` throws where `apiCall` returns a success record. -/
theorem login_signup_differ_from_apiCall_counterexample :
    (login v8 localBase [] (.ok badCredentials401)).2
      = .error ⟨.error, "bad credentials"⟩ ∧
    apiCall v8 localBase (.ok badCredentials401)
      = .error ⟨.error, "Unauthorized. Please login again."⟩ ∧
    (signup v8 localBase [] (.ok noContent204)).2
      = .error ⟨.error, "HTTP 204: No Content"⟩ ∧
    apiCall v8 localBase (.ok noContent204)
      = .ok (.obj [("success", .bool true), ("message", .str "")]) :=
  ⟨rfl, rfl, rfl, rfl⟩

/-- C15 (amended): `login` and `signup` issue the request that `apiCall` would
issue for the same URL, method and body, and they settle with the outcome of
`apiCall` on every transport failure, on every response that declares JSON and
has a 2xx status or a body that fails to parse, and on every response that
does not declare JSON and has a non-2xx status or an unreadable text. -/
theorem login_signup_agree_with_apiCall (eng : Engine) (base : String) (st : Storage)
    (fetched : Except JsError Response) (stringify : JsValue → Option String)
    (full_name email password : String)
    (hdom : ∀ r, fetched = .ok r →
      (declaresJson r.contentType = true ∧ (r.ok = true ∨ ∃ e, r.json = .error e)) ∨
      (declaresJson r.contentType = false ∧ (r.ok = false ∨ ∃ e, r.text = .error e))) :
    (login eng base st fetched).2 = apiCall eng base fetched ∧
    (signup eng base st fetched).2 = apiCall eng base fetched ∧
    loginRequest stringify base email password
      = fetchArgs (base ++ "/auth/login")
          { method := some "POST",
            body := stringify (.obj [("email", .str email), ("password", .str password)]),
            headers := none, credentials := none } ∧
    signupRequest stringify base full_name email password
      = fetchArgs (base ++ "/auth/signup")
          { method := some "POST",
            body := stringify (.obj [("full_name", .str full_name), ("email", .str email),
              ("password", .str password)]),
            headers := none, credentials := none } := by
  refine ⟨?_, ?_, rfl, rfl⟩
  · cases fetched with
    | error e => rfl
    | ok r =>
      rcases hdom r rfl with ⟨hj, hok | ⟨e, he⟩⟩ | ⟨hj, hok | ⟨e, he⟩⟩
      · cases hd : r.json <;> simp [login, loginTry, apiCall, apiCallTry, hj, hok, hd]
      · simp [login, loginTry, apiCall, apiCallTry, hj, he]
      · cases ht : r.text with
        | error e => simp [login, loginTry, apiCall, apiCallTry, hj, ht]
        | ok text =>
          simp only [login, loginTry, apiCall, apiCallTry, hj, hok, ht, Bool.not_false,
            if_true, Bool.false_eq_true, if_false]
          cases throwNewError (α := JsValue) eng
            (if (text != "") = true then JsValue.str text
             else JsValue.str ("HTTP " ++ toString r.status ++ ": " ++ r.statusText)) <;> rfl
      · simp [login, loginTry, apiCall, apiCallTry, hj, he]
  · cases fetched with
    | error e => rfl
    | ok r =>
      rcases hdom r rfl with ⟨hj, hok | ⟨e, he⟩⟩ | ⟨hj, hok | ⟨e, he⟩⟩
      · cases hd : r.json <;> simp [signup, signupTry, apiCall, apiCallTry, hj, hok, hd]
      · simp [signup, signupTry, apiCall, apiCallTry, hj, he]
      · cases ht : r.text with
        | error e => simp [signup, signupTry, apiCall, apiCallTry, hj, ht]
        | ok text =>
          simp only [signup, signupTry, apiCall, apiCallTry, hj, hok, ht, Bool.not_false,
            if_true, Bool.false_eq_true, if_false]
          cases throwNewError (α := JsValue) eng
            (if (text != "") = true then JsValue.str text
             else JsValue.str ("HTTP " ++ toString r.status ++ ": " ++ r.statusText)) <;> rfl
      · simp [signup, signupTry, apiCall, apiCallTry, hj, he]

/-- Witness of `login_signup_agree_with_apiCall`: the list-services response,
a 2xx response that declares JSON. -/
theorem login_signup_agree_with_apiCall_witness :
    (login v8 localBase [] (.ok servicesOk200)).2 = apiCall v8 localBase (.ok servicesOk200) ∧
    (signup v8 localBase [] (.ok servicesOk200)).2
      = apiCall v8 localBase (.ok servicesOk200) :=
  have h := login_signup_agree_with_apiCall v8 localBase [] (.ok servicesOk200)
    (fun _ => none) "Ada" "ada@example.org" "secret"
    (fun r hr => by cases hr; exact Or.inl ⟨rfl, Or.inl rfl⟩)
  ⟨h.1, h.2.1⟩

/-! ## Requests -/

/-- C16: `apiCall` leaves local storage as it was, for every URL, options,
network answer (a 401 or 403 response and a transport failure included) and
prior storage; so does each of the eight service operations. -/
theorem apiCall_keeps_storage (eng : Engine) (base : String) (net : Network)
    (st : Storage) (url : String) (options : Options)
    (stringify : JsValue → Option String) (id : String) (serviceData : JsValue) :
    (apiCallFetch eng base net st url options).1 = st ∧
    getItem (apiCallFetch eng base net st url options).1 "isLoggedIn"
      = getItem st "isLoggedIn" ∧
    ((getServices base).run eng base net st).1 = st ∧
    ((getService base id).run eng base net st).1 = st ∧
    ((getServiceDetails base id).run eng base net st).1 = st ∧
    ((createService stringify base serviceData).run eng base net st).1 = st ∧
    ((updateService stringify base id serviceData).run eng base net st).1 = st ∧
    ((deleteService base id).run eng base net st).1 = st ∧
    ((getServiceLogs base id).run eng base net st).1 = st ∧
    ((getServiceIncidents base id).run eng base net st).1 = st :=
  ⟨rfl, rfl, rfl, rfl, rfl, rfl, rfl, rfl, rfl, rfl⟩

/-- C17: with `base = API_BASE_URL`, the eight service operations call
`apiCall` with the method and URL of the endpoint table, and
`createService` and `updateService` with the body `JSON.stringify(d)`. -/
theorem service_operations_calls (env : Option String)
    (stringify : JsValue → Option String) (id : String) (d : JsValue) :
    getServices (API_BASE_URL env)
      = ⟨API_BASE_URL env ++ "/services", ⟨some "GET", none, none, none⟩⟩ ∧
    getService (API_BASE_URL env) id
      = ⟨API_BASE_URL env ++ "/services/service/" ++ id, ⟨some "GET", none, none, none⟩⟩ ∧
    getServiceDetails (API_BASE_URL env) id
      = ⟨API_BASE_URL env ++ "/services/service_details/" ++ id,
          ⟨some "GET", none, none, none⟩⟩ ∧
    createService stringify (API_BASE_URL env) d
      = ⟨API_BASE_URL env ++ "/services/service", ⟨some "POST", stringify d, none, none⟩⟩ ∧
    updateService stringify (API_BASE_URL env) id d
      = ⟨API_BASE_URL env ++ "/services/service/" ++ id,
          ⟨some "PUT", stringify d, none, none⟩⟩ ∧
    deleteService (API_BASE_URL env) id
      = ⟨API_BASE_URL env ++ "/services/service/" ++ id,
          ⟨some "DELETE", none, none, none⟩⟩ ∧
    getServiceLogs (API_BASE_URL env) id
      = ⟨API_BASE_URL env ++ "/services/service/" ++ id ++ "/logs",
          ⟨some "GET", none, none, none⟩⟩ ∧
    getServiceIncidents (API_BASE_URL env) id
      = ⟨API_BASE_URL env ++ "/services/service/" ++ id ++ "/incident-logs",
          ⟨some "GET", none, none, none⟩⟩ := by
  have h1 : ∀ b : String, b ++ "/services/service" ++ "/" ++ id
      = b ++ "/services/service/" ++ id := by
    intro b
    have h0 : "/services/service" ++ "/" = "/services/service/" := by decide
    rw [String.append_assoc b, h0]
  have h2 : ∀ b : String, b ++ "/services/service_details" ++ "/" ++ id
      = b ++ "/services/service_details/" ++ id := by
    intro b
    have h0 : "/services/service_details" ++ "/" = "/services/service_details/" := by decide
    rw [String.append_assoc b, h0]
  refine ⟨rfl, ?_, ?_, rfl, ?_, ?_, ?_, ?_⟩
  · simp only [getService, API_ENDPOINTS.SERVICE, h1]
  · simp only [getServiceDetails, API_ENDPOINTS.SERVICE_DETAILS, h2]
  · simp only [updateService, API_ENDPOINTS.SERVICE, h1]
  · simp only [deleteService, API_ENDPOINTS.SERVICE, h1]
  · simp only [getServiceLogs, API_ENDPOINTS.SERVICE_LOGS, String.append_assoc]
  · simp only [getServiceIncidents, API_ENDPOINTS.SERVICE_INCIDENTS, String.append_assoc]

theorem lookup_cons_ite (a b k : String) (es : List (String × String)) :
    ((a, b) :: es).lookup k = if k = a then some b else es.lookup k := by
  by_cases h : k = a
  · subst h
    simp [List.lookup]
  · have hb : (k == a) = false := by simpa using h
    simp [List.lookup, hb, h]

theorem lookup_setProp (o : List (String × String)) (k' v k : String) :
    (setProp o k' v).lookup k = if k = k' then some v else o.lookup k := by
  induction o with
  | nil =>
    simp only [setProp, lookup_cons_ite]
  | cons entry rest ih =>
    obtain ⟨a, b⟩ := entry
    by_cases ha : a = k'
    · subst ha
      by_cases h : k = a <;> simp [setProp, lookup_cons_ite, h]
    · by_cases h : k = k'
      · subst h
        have hka : ¬ k = a := fun h' => ha h'.symm
        simp [setProp, lookup_cons_ite, ha, hka, ih]
      · by_cases hka : k = a <;> simp [setProp, lookup_cons_ite, ha, hka, ih, h]

theorem lookup_filter_ne (l : List (String × String)) (a k : String) (h : k ≠ a) :
    (l.filter (fun entry => entry.1 != a)).lookup k = l.lookup k := by
  induction l with
  | nil => rfl
  | cons entry rest ih =>
    obtain ⟨x, y⟩ := entry
    by_cases hx : x = a
    · subst hx
      simp [List.filter, lookup_cons_ite, h, ih]
    · have hxa : (x != a) = true := by simpa using hx
      simp [List.filter, hxa, lookup_cons_ite, ih]

theorem lookup_ownProps (l : List (String × String)) (k : String) :
    (ownProps l).lookup k = l.lookup k := by
  induction l with
  | nil => rfl
  | cons entry rest ih =>
    obtain ⟨x, y⟩ := entry
    by_cases hkx : k = x
    · simp [ownProps, lookup_cons_ite, hkx]
    · simp [ownProps, lookup_cons_ite, hkx, lookup_filter_ne _ _ _ hkx, ih]

theorem lookup_of_not_mem_keys (l : List (String × String)) (k : String)
    (h : k ∉ l.map Prod.fst) : l.lookup k = none := by
  induction l with
  | nil => rfl
  | cons entry rest ih =>
    obtain ⟨x, y⟩ := entry
    simp only [List.map_cons, List.mem_cons, not_or] at h
    simp [lookup_cons_ite, h.1, ih h.2]

theorem keys_ownProps_nodup (l : List (String × String)) :
    ((ownProps l).map Prod.fst).Nodup := by
  induction l with
  | nil => simp [ownProps]
  | cons entry rest ih =>
    obtain ⟨x, y⟩ := entry
    simp only [ownProps, List.map_cons, List.nodup_cons]
    constructor
    · intro hmem
      obtain ⟨entry, he, hfst⟩ := List.mem_map.mp hmem
      have hne := (List.mem_filter.mp he).2
      simp [hfst] at hne
    · exact ih.sublist (List.Sublist.map _ (List.filter_sublist _))

theorem lookup_foldl_setProp (src target : List (String × String)) (k : String)
    (hnd : (src.map Prod.fst).Nodup) :
    (src.foldl (fun acc entry => setProp acc entry.1 entry.2) target).lookup k
      = match src.lookup k with
        | some v => some v
        | none => target.lookup k := by
  induction src generalizing target with
  | nil => rfl
  | cons entry rest ih =>
    obtain ⟨x, y⟩ := entry
    simp only [List.map_cons, List.nodup_cons] at hnd
    simp only [List.foldl_cons, ih _ hnd.2, lookup_setProp, lookup_cons_ite]
    by_cases hkx : k = x
    · subst hkx
      simp [lookup_of_not_mem_keys _ _ hnd.1]
    · simp [hkx]

theorem lookup_spread (target source : List (String × String)) (k : String) :
    (spread target source).lookup k
      = match source.lookup k with
        | some v => some v
        | none => target.lookup k := by
  unfold spread
  rw [lookup_foldl_setProp _ _ _ (keys_ownProps_nodup source), lookup_ownProps]

/-- C18: for every URL and options record, the request that `apiCall` issues
(a) has credentials "include", whatever `options.credentials` is, and (b) has
the headers of `options.headers` written over the two defaults: a header that
the caller supplies has the caller's value, any other header has its default
value if it is one of the two defaults and is absent otherwise. -/
theorem apiCall_request_headers (url : String) (options : Options) (k : String) :
    (fetchArgs url options).credentials = "include" ∧
    (fetchArgs url options).headers.lookup k
      = (match (options.headers.getD []).lookup k with
        | some v => some v
        | none => defaultHeaders.lookup k) ∧
    defaultHeaders.lookup "Content-Type" = some "application/json" ∧
    defaultHeaders.lookup "ngrok-skip-browser-warning" = some "true" ∧
    (fetchArgs url options).url = url ∧
    (fetchArgs url options).method = options.method ∧
    (fetchArgs url options).body = options.body :=
  ⟨rfl, lookup_spread _ _ _, rfl, rfl, rfl, rfl, rfl⟩

/-! ## The error handlers of the pages -/

theorem isAuthError_unauthorized :
    isAuthError "Unauthorized. Please login again." = true ∧
    Home.isAuthError "Unauthorized. Please login again." = true := by
  constructor <;> decide

/-- C19 (the code at the failing input): when `deleteService` in Details, or
`updateService` in EditService, fails with the authorization error, the
`catch` block shows a toast and nothing else: storage, `isAuthenticated` and
the route are those of before, so that a logged-in page keeps its marker. -/
theorem delete_update_handlers_keep_session (s : PageState) :
    (Details.handleDeleteCatch unauthorizedError s).storage = s.storage ∧
    (Details.handleDeleteCatch unauthorizedError s).isAuthenticated = s.isAuthenticated ∧
    (Details.handleDeleteCatch unauthorizedError s).location = s.location ∧
    (EditService.handleSubmitCatch unauthorizedError s).storage = s.storage ∧
    (EditService.handleSubmitCatch unauthorizedError s).isAuthenticated
      = s.isAuthenticated ∧
    (EditService.handleSubmitCatch unauthorizedError s).location = s.location ∧
    getAccessToken (Details.handleDeleteCatch unauthorizedError loggedInPage).storage
      = some "true" ∧
    (Details.handleDeleteCatch unauthorizedError loggedInPage).isAuthenticated = true ∧
    getAccessToken (EditService.handleSubmitCatch unauthorizedError loggedInPage).storage
      = some "true" ∧
    (EditService.handleSubmitCatch unauthorizedError loggedInPage).isAuthenticated = true :=
  ⟨rfl, rfl, rfl, rfl, rfl, rfl, rfl, rfl, rfl, rfl⟩

/-- The part of C19 that holds: in the six other call sites the `catch` block
calls the `logout` of the auth context on the authorization error, after which
the marker is absent, `isAuthenticated` is false and the route is `/login`. -/
theorem other_handlers_clear_session (s : PageState) :
    ∀ handler ∈ [Home.fetchServicesCatch, Details.fetchServiceDetailsCatch,
        EditService.fetchServiceCatch, AddService.handleSubmitCatch,
        Logs.fetchDataCatch, Incidents.fetchDataCatch],
      getAccessToken (handler unauthorizedError s).storage = none ∧
      (handler unauthorizedError s).isAuthenticated = false ∧
      (handler unauthorizedError s).location = "/login" := by
  have h1 : isAuthError unauthorizedError.message = true := isAuthError_unauthorized.1
  have h2 : Home.isAuthError unauthorizedError.message = true :=
    isAuthError_unauthorized.2
  have h3 : isAuthError (messageOr unauthorizedError "Failed to load service details.")
      = true := by decide
  intro handler hmem
  simp only [List.mem_cons, List.mem_singleton, List.not_mem_nil, or_false] at hmem
  rcases hmem with rfl | rfl | rfl | rfl | rfl | rfl
  · simp [Home.fetchServicesCatch, h2, navigate, AuthContext.logout,
      getAccessToken_removeAccessToken]
  · simp [Details.fetchServiceDetailsCatch, h1, navigate, AuthContext.logout, toastError,
      getAccessToken_removeAccessToken]
  · simp [EditService.fetchServiceCatch, h3, navigate, AuthContext.logout, toastError,
      getAccessToken_removeAccessToken]
  · simp [AddService.handleSubmitCatch, h1, navigate, AuthContext.logout, toastError,
      getAccessToken_removeAccessToken]
  · simp [Logs.fetchDataCatch, h1, navigate, AuthContext.logout, toastError,
      getAccessToken_removeAccessToken]
  · simp [Incidents.fetchDataCatch, h1, navigate, AuthContext.logout, toastError,
      getAccessToken_removeAccessToken]

/-- C20 (as stated, refuted): a 500 response whose message is
"Invalid token format" is classified as an authorization failure, and a 401
response with the plain text "Session expired" is not. -/
theorem classification_not_exact_counterexample :
    invalidToken500.status = 500 ∧
    apiCall v8 localBase (.ok invalidToken500)
      = .error ⟨.error, "Invalid token format"⟩ ∧
    isAuthError "Invalid token format" = true ∧
    plainText401.status = 401 ∧
    apiCall v8 localBase (.ok plainText401) = .error ⟨.error, "Session expired"⟩ ∧
    isAuthError "Session expired" = false := by
  refine ⟨rfl, rfl, ?_, rfl, rfl, ?_⟩ <;> decide

/-- C20 (amended): for every response with status 401 or 403 that declares
JSON and whose body parses, the error that `apiCall` throws is classified as
an authorization failure by the check of the callers, that of Home
included. -/
theorem unauthorized_json_classified (eng : Engine) (base : String) (r : Response)
    (data : JsValue) (hs : r.status = 401 ∨ r.status = 403)
    (hj : declaresJson r.contentType = true) (hd : r.json = .ok data) :
    ∃ e, apiCall eng base (.ok r) = .error e ∧
      isAuthError e.message = true ∧ Home.isAuthError e.message = true := by
  have hok : r.ok = false := by
    rcases hs with h | h <;> simp [Response.ok, h]
  refine ⟨⟨.error, "Unauthorized. Please login again."⟩, ?_,
    isAuthError_unauthorized.1, isAuthError_unauthorized.2⟩
  simp [apiCall, apiCallTry, hj, hd, hok, hs, throwNewError_str, rethrow_error]

/-- Witness of `unauthorized_json_classified`: the 401 response with the body
`{error: "bad credentials"}`. -/
theorem unauthorized_json_classified_witness :
    ∃ e, apiCall v8 localBase (.ok badCredentials401) = .error e ∧
      isAuthError e.message = true ∧ Home.isAuthError e.message = true :=
  unauthorized_json_classified v8 localBase badCredentials401
    (.obj [("error", .str "bad credentials")]) (Or.inl rfl) rfl rfl

/-! ## The list of Home -/

theorem fetchServicesCatch_services (err : JsError) (s : PageState) :
    (Home.fetchServicesCatch err s).services = [] := by
  unfold Home.fetchServicesCatch
  dsimp only
  split <;> rfl

theorem pickServices_shownList (eng : Engine) (r : JsValue) :
    Home.pickServices eng r = .ok (Home.shownList r) ∨
    (Home.shownList r = [] ∧ ∃ e, Home.pickServices eng r = .error e) := by
  cases r with
  | undefined => exact Or.inr ⟨rfl, _, rfl⟩
  | null => exact Or.inr ⟨rfl, _, rfl⟩
  | bool b => exact Or.inl rfl
  | num n => exact Or.inl rfl
  | str s => exact Or.inl rfl
  | arr items => exact Or.inl rfl
  | obj fields =>
    left
    simp only [Home.pickServices, Home.shownList, asArray, getProp, fieldOf, bind,
      Except.bind]
    cases hs : (lookupField "services" fields).getD .undefined <;>
      cases hd : (lookupField "data" fields).getD .undefined <;>
      simp [truthy, asArray]

/-- C21: for every successful list-services result `r`, the list that Home
holds afterwards is `r` itself when `r` is an array, otherwise `r.services`
when that is an array, otherwise `r.data` when that is an array, otherwise the
empty list; the result `{data: [{id: 1, name: "Ping"}]}` yields
`[{id: 1, name: "Ping"}]`. -/
theorem home_shows_list (eng : Engine) (r : JsValue) (s : PageState) :
    (Home.fetchServices eng (.ok r) s).services = Home.shownList r ∧
    (Home.fetchServices eng
        (.ok (.obj [("data", .arr [.obj [("id", .num 1), ("name", .str "Ping")]])])) s).services
      = [.obj [("id", .num 1), ("name", .str "Ping")]] := by
  refine ⟨?_, rfl⟩
  rcases pickServices_shownList eng r with h | ⟨h0, e, he⟩
  · simp [Home.fetchServices, h]
  · simp [Home.fetchServices, he, h0, fetchServicesCatch_services]

/-! ## The invariant of the session marker -/

theorem getItem_setItem_ne (st : Storage) (k' v k : String) (h : k ≠ k') :
    getItem (setItem st k' v) k = getItem st k := by
  induction st with
  | nil => simp [setItem, getItem, Ne.symm h]
  | cons entry rest ih =>
    obtain ⟨a, b⟩ := entry
    by_cases ha : a = k'
    · subst ha
      simp [setItem, getItem, Ne.symm h]
    · by_cases hak : a = k
      · subst hak
        simp [setItem, getItem, ha]
      · simp [setItem, getItem, ha, hak, ih]

theorem getItem_removeItem_ne (st : Storage) (k' k : String) (h : k ≠ k') :
    getItem (removeItem st k') k = getItem st k := by
  induction st with
  | nil => rfl
  | cons entry rest ih =>
    obtain ⟨a, b⟩ := entry
    by_cases ha : a = k'
    · subst ha
      have hak : ¬ a = k := fun h' => h h'.symm
      simpa [removeItem, List.filter, getItem, hak] using ih
    · have hne : (a != k') = true := by simpa using ha
      by_cases hak : a = k
      · subst hak
        simp [removeItem, List.filter, hne, getItem]
      · simpa [removeItem, List.filter, hne, getItem, hak] using ih

theorem setLoginFlag_invariant (st : Storage) :
    markerOk (setLoginFlag st) ∧ sameOtherKeys st (setLoginFlag st) :=
  ⟨Or.inr (getItem_setItem st _ _), fun k hk => getItem_setItem_ne st _ _ k hk⟩

theorem removeAccessToken_invariant (st : Storage) :
    markerOk (removeAccessToken st) ∧ sameOtherKeys st (removeAccessToken st) :=
  ⟨Or.inl (getItem_removeItem st _), fun k hk => getItem_removeItem_ne st _ k hk⟩

theorem login_storage (eng : Engine) (base : String) (st : Storage)
    (fetched : Except JsError Response) :
    (login eng base st fetched).1 = setLoginFlag st ∨ (login eng base st fetched).1 = st := by
  rcases loginTry_outcome eng st fetched with ⟨_, _, _, _, _, _, h⟩ | ⟨_, h, _⟩
  · left; simp [login, h]
  · right; simp [login, h]

theorem signup_storage (eng : Engine) (base : String) (st : Storage)
    (fetched : Except JsError Response) :
    (signup eng base st fetched).1 = setLoginFlag st ∨
      (signup eng base st fetched).1 = st := by
  rcases signupTry_outcome eng st fetched with ⟨_, _, _, _, _, _, h⟩ | ⟨_, h, _⟩
  · left; simp [signup, h]
  · right; simp [signup, h]

/-- C22: from a storage in which `isLoggedIn` is absent or holds "true", each
of `setLoginFlag`, `removeAccessToken`, `login`, `signup`, `logout` and the
`logout` of the auth context, under every outcome of the server call, leaves
`isLoggedIn` absent or equal to "true" and leaves the value under every other
key as it was. -/
theorem session_marker_invariant (eng : Engine) (base : String) (st : Storage)
    (fetched : Except JsError Response) (s : PageState) (h : markerOk st)
    (hs : s.storage = st) :
    (markerOk (setLoginFlag st) ∧ sameOtherKeys st (setLoginFlag st)) ∧
    (markerOk (removeAccessToken st) ∧ sameOtherKeys st (removeAccessToken st)) ∧
    (markerOk (login eng base st fetched).1 ∧
      sameOtherKeys st (login eng base st fetched).1) ∧
    (markerOk (signup eng base st fetched).1 ∧
      sameOtherKeys st (signup eng base st fetched).1) ∧
    (markerOk (logout eng base st fetched).1 ∧
      sameOtherKeys st (logout eng base st fetched).1) ∧
    (markerOk (AuthContext.logout s).storage ∧
      sameOtherKeys st (AuthContext.logout s).storage) := by
  have hkeep : markerOk st ∧ sameOtherKeys st st := ⟨h, fun _ _ => rfl⟩
  refine ⟨setLoginFlag_invariant st, removeAccessToken_invariant st, ?_, ?_, ?_, ?_⟩
  · rcases login_storage eng base st fetched with h' | h' <;> rw [h']
    · exact setLoginFlag_invariant st
    · exact hkeep
  · rcases signup_storage eng base st fetched with h' | h' <;> rw [h']
    · exact setLoginFlag_invariant st
    · exact hkeep
  · rcases logout_storage eng base st fetched with h' | h' <;> rw [h']
    · exact removeAccessToken_invariant st
    · have hidem : removeAccessToken (removeAccessToken st) = removeAccessToken st :=
        removeItem_removeItem st _
      rw [hidem]
      exact removeAccessToken_invariant st
  · have hout : (AuthContext.logout s).storage = removeAccessToken st := by
      simp [AuthContext.logout, hs]
    rw [hout]
    exact removeAccessToken_invariant st

/-- Witness of `session_marker_invariant`: a logged-in storage and a 503
response. -/
theorem session_marker_invariant_witness :
    markerOk (logout v8 localBase loggedInStorage (.ok unavailable503)).1 ∧
    sameOtherKeys loggedInStorage
      (logout v8 localBase loggedInStorage (.ok unavailable503)).1 :=
  (session_marker_invariant v8 localBase loggedInStorage (.ok unavailable503)
    loggedInPage (Or.inr rfl) rfl).2.2.2.2.1

/-! ## The joined loads of Logs and Incidents -/

theorem logs_catch_error (err : JsError) (p : PageState) :
    (Logs.fetchDataCatch err p).error = messageOr err "Failed to load logs" := by
  unfold Logs.fetchDataCatch
  dsimp only
  split <;> rfl

theorem incidents_catch_error (err : JsError) (p : PageState) :
    (Incidents.fetchDataCatch err p).error = messageOr err "Failed to load incidents" := by
  unfold Incidents.fetchDataCatch
  dsimp only
  split <;> rfl

theorem promiseAll2_rejects {α β : Type} (first : Bool) (a : Except JsError α)
    (b : Except JsError β) (hfail : (∃ e, a = .error e) ∨ (∃ e, b = .error e)) :
    ∃ e, (a = .error e ∨ b = .error e) ∧ promiseAll2 first a b = .error e := by
  cases a with
  | error e1 =>
    cases b with
    | error e2 =>
      cases first
      · exact ⟨e2, Or.inr rfl, rfl⟩
      · exact ⟨e1, Or.inl rfl, rfl⟩
    | ok y => exact ⟨e1, Or.inl rfl, rfl⟩
  | ok x =>
    cases b with
    | error e2 => exact ⟨e2, Or.inr rfl, rfl⟩
    | ok y =>
      rcases hfail with ⟨e, he⟩ | ⟨e, he⟩ <;> cases he

/-- C23 (as stated, refuted): when `getService` rejects with the error that
`apiCall` throws for a 500 response with the body `{message: []}`, an error
whose message is empty, the error of the Logs page is not that message but
"Failed to load logs". -/
theorem logs_error_fallback_counterexample :
    apiCall v8 localBase (.ok emptyMessage500) = .error ⟨.error, ""⟩ ∧
    (Logs.fetchData v8 true (apiCall v8 localBase (.ok emptyMessage500)) (.ok (.arr []))
      logsPageBefore).page.error = "Failed to load logs" :=
  ⟨rfl, rfl⟩

/-- C23 (amended): in Logs, and likewise in Incidents, if either of the two
joined calls fails, the page's error is set to the message of a failing call,
or to "Failed to load logs" ("Failed to load incidents") when that message is
empty, and neither the service name nor the rows are updated, even when the
other call succeeded; so the rows are set only when both calls succeed. -/
theorem joined_load_fails (eng : Engine) (first : Bool)
    (serviceResult rowsResult : Except JsError JsValue) (s : RowsPage)
    (hfail : (∃ e, serviceResult = .error e) ∨ (∃ e, rowsResult = .error e)) :
    (∃ e, (serviceResult = .error e ∨ rowsResult = .error e) ∧
      (Logs.fetchData eng first serviceResult rowsResult s).page.error
        = messageOr e "Failed to load logs" ∧
      (Logs.fetchData eng first serviceResult rowsResult s).serviceName = s.serviceName ∧
      (Logs.fetchData eng first serviceResult rowsResult s).rows = s.rows) ∧
    (∃ e, (serviceResult = .error e ∨ rowsResult = .error e) ∧
      (Incidents.fetchData eng first serviceResult rowsResult s).page.error
        = messageOr e "Failed to load incidents" ∧
      (Incidents.fetchData eng first serviceResult rowsResult s).serviceName
        = s.serviceName ∧
      (Incidents.fetchData eng first serviceResult rowsResult s).rows = s.rows) := by
  obtain ⟨e, hmem, he⟩ := promiseAll2_rejects first serviceResult rowsResult hfail
  constructor
  · refine ⟨e, hmem, ?_, ?_, ?_⟩ <;>
      simp [Logs.fetchData, he, logs_catch_error]
  · refine ⟨e, hmem, ?_, ?_, ?_⟩ <;>
      simp [Incidents.fetchData, he, incidents_catch_error]

/-- Witness of `joined_load_fails`: the service call is refused with a 401,
the logs call succeeds. -/
theorem joined_load_fails_witness :
    ∃ e, (apiCall v8 localBase (.ok badCredentials401) = .error e ∨
        (Except.ok (.arr [.num 1]) : Except JsError JsValue) = .error e) ∧
      (Logs.fetchData v8 true (apiCall v8 localBase (.ok badCredentials401))
        (.ok (.arr [.num 1])) logsPageBefore).page.error
        = messageOr e "Failed to load logs" ∧
      (Logs.fetchData v8 true (apiCall v8 localBase (.ok badCredentials401))
        (.ok (.arr [.num 1])) logsPageBefore).serviceName = logsPageBefore.serviceName ∧
      (Logs.fetchData v8 true (apiCall v8 localBase (.ok badCredentials401))
        (.ok (.arr [.num 1])) logsPageBefore).rows = logsPageBefore.rows :=
  (joined_load_fails v8 true (apiCall v8 localBase (.ok badCredentials401))
    (.ok (.arr [.num 1])) logsPageBefore (Or.inl ⟨_, rfl⟩)).1

/-! ## The latency chart -/

theorem mapFrom_length (timeLabel : Int → String) (index : Nat)
    (items : List LatencySample) :
    (LatencyGraph.mapFrom timeLabel index items).length = items.length := by
  induction items generalizing index with
  | nil => rfl
  | cons item rest ih => simp [LatencyGraph.mapFrom, ih]

theorem mapFrom_ids (timeLabel : Int → String) (index : Nat)
    (items : List LatencySample) :
    (LatencyGraph.mapFrom timeLabel index items).map ChartPoint.id
      = List.range' (index + 1) items.length := by
  induction items generalizing index with
  | nil => rfl
  | cons item rest ih => simp [LatencyGraph.mapFrom, ih, List.range'_succ]

theorem mapFrom_latency (timeLabel : Int → String) (index : Nat)
    (items : List LatencySample) :
    (LatencyGraph.mapFrom timeLabel index items).map ChartPoint.latency
      = items.map LatencySample.response_time_ms := by
  induction items generalizing index with
  | nil => rfl
  | cons item rest ih => simp [LatencyGraph.mapFrom, ih]

/-- C25: for every list of latency samples with valid timestamps, the chart
data has the length of the input, is built from a permutation of the input
samples ordered by non-decreasing `checked_at`, and carries the ids 1, 2, ...,
n in that order with `latency` equal to each sample's `response_time_ms`. -/
theorem latency_chart_sorted (timeLabel : Int → String)
    (latencyData : List LatencySample) :
    (LatencyGraph.chartData timeLabel latencyData).length = latencyData.length ∧
    (LatencyGraph.sortedData latencyData).Perm latencyData ∧
    (LatencyGraph.sortedData latencyData).Sorted
      (fun a b => a.checked_at ≤ b.checked_at) ∧
    (LatencyGraph.chartData timeLabel latencyData).map ChartPoint.id
      = List.range' 1 latencyData.length ∧
    (LatencyGraph.chartData timeLabel latencyData).map ChartPoint.latency
      = (LatencyGraph.sortedData latencyData).map LatencySample.response_time_ms := by
  have hlen : (LatencyGraph.sortedData latencyData).length = latencyData.length :=
    List.length_insertionSort _ _
  have htotal : IsTotal LatencySample LatencyGraph.notAfter :=
    ⟨fun a b => le_total a.checked_at b.checked_at⟩
  have htrans : IsTrans LatencySample LatencyGraph.notAfter :=
    ⟨fun a b c hab hbc => le_trans (a := a.checked_at) hab hbc⟩
  refine ⟨?_, List.perm_insertionSort _ _, ?_, ?_, mapFrom_latency _ _ _⟩
  · rw [LatencyGraph.chartData, mapFrom_length, hlen]
  · exact List.sorted_insertionSort LatencyGraph.notAfter latencyData
  · rw [LatencyGraph.chartData, mapFrom_ids, hlen]

/-! ## Durations and messages -/

theorem roundHalfEven_scaled (n c p : Nat) (hc : 0 < c) (hp : c < 2 ^ (p + 1)) :
    roundHalfEven (n * 2 ^ p) c / 2 ^ p = n / c := by
  have hP : 0 < 2 ^ p := Nat.two_pow_pos p
  have h2P : c < 2 * 2 ^ p := by
    rw [pow_succ] at hp
    omega
  generalize 2 ^ p = P at hP h2P ⊢
  have hn : c * (n / c) + n % c = n := Nat.div_add_mod n c
  have hr : n % c < c := Nat.mod_lt _ hc
  have ha : c * (n * P / c) + n * P % c = n * P := Nat.div_add_mod (n * P) c
  have hs : n * P % c < c := Nat.mod_lt _ hc
  generalize hk : n / c = k at hn ⊢
  generalize hrr : n % c = r at hn hr
  generalize hq : n * P / c = q at ha
  generalize hss : n * P % c = s at ha hs
  have e1 : n * P = c * (k * P) + r * P := by
    rw [← hn]
    ring
  have e2 : r * P + P ≤ c * P := by
    have : (r + 1) * P ≤ c * P := Nat.mul_le_mul_right P hr
    calc r * P + P = (r + 1) * P := by ring
      _ ≤ c * P := this
  have hqlo : k * P ≤ q := by
    rw [← hq]
    apply (Nat.le_div_iff_mul_le hc).mpr
    calc k * P * c = c * (k * P) := by ring
      _ ≤ n * P := by omega
  have hqhi : q < k * P + P := by
    rw [← hq]
    apply (Nat.div_lt_iff_lt_mul hc).mpr
    calc n * P = c * (k * P) + r * P := e1
      _ < c * (k * P) + c * P := by omega
      _ = (k * P + P) * c := by ring
  have hround : q + 1 < k * P + P ∨ 2 * s < c := by
    by_contra hcon
    push_neg at hcon
    obtain ⟨h1, h2⟩ := hcon
    have hq1 : q + 1 = k * P + P := by omega
    have e3 : c * (q + 1) = c * (k * P) + c * P := by
      rw [hq1]
      ring
    have e4 : c * (q + 1) = c * q + c := by ring
    omega
  have hmain : k * P ≤ roundHalfEven (n * P) c ∧ roundHalfEven (n * P) c < (k + 1) * P := by
    have e5 : (k + 1) * P = k * P + P := by ring
    unfold roundHalfEven
    rw [hq, hss, e5]
    split
    · exact ⟨hqlo, hqhi⟩
    · have hq2 : q + 1 < k * P + P := by
        rcases hround with h | h
        · exact h
        · omega
      split
      · exact ⟨by omega, hq2⟩
      · split
        · exact ⟨hqlo, hqhi⟩
        · exact ⟨by omega, hq2⟩
  exact Nat.div_eq_of_lt_le (by simpa [Nat.mul_comm] using hmain.1)
    (by simpa [Nat.mul_comm, Nat.succ_eq_add_one] using hmain.2)

theorem upExp_le (fuel n d : Nat) (h : d ≤ n) : d * 2 ^ upExp fuel n d ≤ n := by
  induction fuel generalizing d with
  | zero => simpa [upExp] using h
  | succ fuel ih =>
    unfold upExp
    split
    · rename_i h2
      have := ih (2 * d) h2
      calc d * 2 ^ (upExp fuel n (2 * d) + 1) = 2 * d * 2 ^ upExp fuel n (2 * d) := by
            rw [pow_succ]
            ring
        _ ≤ n := this
    · simpa using h

theorem nearestDouble_floor (n c : Nat) (hc : 0 < c) (hn : n < 2 ^ 53) (hc53 : c < 2 ^ 53)
    (hcap : ∀ e, c * 2 ^ e ≤ n → c < 2 ^ (53 - e)) :
    (nearestDouble n c).1 / (nearestDouble n c).2 = n / c := by
  unfold nearestDouble
  by_cases hle : c ≤ n
  · have hup := upExp_le 1100 n c hle
    have he : upExp 1100 n c ≤ 52 := by
      by_contra hgt
      have h53 : 53 ≤ upExp 1100 n c := by omega
      have hpow : 2 ^ 53 ≤ 2 ^ upExp 1100 n c := Nat.pow_le_pow_right (by decide) h53
      have hmul : 1 * 2 ^ upExp 1100 n c ≤ c * 2 ^ upExp 1100 n c :=
        Nat.mul_le_mul_right _ hc
      omega
    have hlt := hcap _ hup
    have hidx : 53 - upExp 1100 n c = (52 - upExp 1100 n c) + 1 := by omega
    rw [hidx] at hlt
    simp only [hle, he, if_true]
    exact roundHalfEven_scaled n c _ hc hlt
  · simp only [hle, if_false]
    apply roundHalfEven_scaled n c _ hc
    have hpow : 2 ^ 53 ≤ 2 ^ (52 + downExp 1100 n c + 1) :=
      Nat.pow_le_pow_right (by decide) (by omega)
    omega

theorem doubleOfInt_exact (x : Int) (h0 : 0 ≤ x) (hx : x < 2 ^ 53) : doubleOfInt x = x := by
  unfold doubleOfInt
  by_cases hz : x = 0
  · simp [hz]
  · have hpos : 0 < x := by omega
    have hn : x.natAbs < 2 ^ 53 := by omega
    have hfloor := nearestDouble_floor x.natAbs 1 (by decide) hn (by decide) (by
      intro e he
      have he53 : e < 53 := by
        by_contra hge
        have hpow : 2 ^ 53 ≤ 2 ^ e := Nat.pow_le_pow_right (by decide) (by omega)
        omega
      have hpow : 2 ^ 1 ≤ 2 ^ (53 - e) := Nat.pow_le_pow_right (by decide) (by omega)
      omega)
    simp only [hz, if_false, hfloor, Nat.div_one, Int.sign_eq_one_of_pos hpos, one_mul]
    omega

theorem floorOfQuotient_exact (x : Int) (c k : Nat) (h0 : 0 ≤ x) (hx : x < 2 ^ 53)
    (hc : 0 < c) (hck : c < 2 ^ k) (hk : k ≤ 53) (hbig : 2 ^ 53 ≤ c * 2 ^ (54 - k)) :
    floorOfQuotient x c = x / (c : Int) := by
  unfold floorOfQuotient
  by_cases hz : x = 0
  · simp [hz]
  · have hpos : 0 < x := by omega
    have hn : x.natAbs < 2 ^ 53 := by omega
    have hc53 : c < 2 ^ 53 := by
      have hpow : 2 ^ k ≤ 2 ^ 53 := Nat.pow_le_pow_right (by decide) hk
      omega
    have hfloor := nearestDouble_floor x.natAbs c hc hn hc53 (by
      intro e he
      have he' : e < 54 - k := by
        by_contra hge
        have hpow : 2 ^ (54 - k) ≤ 2 ^ e := Nat.pow_le_pow_right (by decide) (by omega)
        have hmul : c * 2 ^ (54 - k) ≤ c * 2 ^ e := Nat.mul_le_mul_left c hpow
        omega
      have hpow : 2 ^ k ≤ 2 ^ (53 - e) := Nat.pow_le_pow_right (by decide) (by omega)
      omega)
    simp only [hz, if_false, hpos, if_true, hfloor]
    have hcast : ((x.natAbs : Nat) : Int) = x := Int.natAbs_of_nonneg h0
    rw [Int.ofNat_ediv, hcast]

/-- C28 (as stated, refuted): for the first instant of the range of `Date`
and the instant one millisecond before its last, 17279999999999999 ms apart,
the whole minutes are 287999999999, that is 4799999999 hours and 59 minutes;
the subtraction of the code rounds the difference to the double
17280000000000000, and `calculateDuration` returns "4800000000h 0m". -/
theorem calculateDuration_rounding_counterexample :
    extremeTimeValue "-271821-04-20T00:00:00.000Z" = some (-8640000000000000) ∧
    extremeTimeValue "+275760-09-12T23:59:59.999Z" = some 8639999999999999 ∧
    ((8639999999999999 : Int) - (-8640000000000000)) / 60000 / 60 = 4799999999 ∧
    ((8639999999999999 : Int) - (-8640000000000000)) / 60000 % 60 = 59 ∧
    calculateDuration extremeTimeValue (some "-271821-04-20T00:00:00.000Z")
      (some "+275760-09-12T23:59:59.999Z") = "4800000000h 0m" ∧
    calculateDuration extremeTimeValue (some "-271821-04-20T00:00:00.000Z")
      (some "+275760-09-12T23:59:59.999Z") ≠ "4799999999h 59m" := by
  refine ⟨rfl, rfl, by decide, by decide, by decide, by decide⟩

/-- C28 (amended): for every pair of present timestamps with start ≤ end that
are less than 2^53 ms apart, with `m` the whole minutes between them,
`calculateDuration` returns "<m> min" when m < 60 and otherwise "<h>h <r>m"
with h = ⌊m / 60⌋ and r = m mod 60, so that 60·h + r = m and 0 ≤ r < 60; it
returns "N/A" when start or end is missing. -/
theorem calculateDuration_format (timeValue : String → Option Int) (s e : String)
    (a b : Int) (hs : s ≠ "") (he : e ≠ "") (hsv : timeValue s = some a)
    (hev : timeValue e = some b) (hab : a ≤ b) (hbound : b - a < 2 ^ 53) :
    ((b - a) / 60000 < 60 →
      calculateDuration timeValue (some s) (some e)
        = toString ((b - a) / 60000) ++ " min") ∧
    (60 ≤ (b - a) / 60000 →
      calculateDuration timeValue (some s) (some e)
        = toString ((b - a) / 60000 / 60) ++ "h "
            ++ toString ((b - a) / 60000 % 60) ++ "m" ∧
      60 * ((b - a) / 60000 / 60) + (b - a) / 60000 % 60 = (b - a) / 60000 ∧
      0 ≤ (b - a) / 60000 % 60 ∧ (b - a) / 60000 % 60 < 60) ∧
    (∀ x, calculateDuration timeValue none x = "N/A") ∧
    (∀ x, calculateDuration timeValue x none = "N/A") := by
  have hd0 : 0 ≤ b - a := by omega
  have hm0 : 0 ≤ (b - a) / 60000 :=
    Int.ediv_nonneg hd0 (by decide)
  have hm53 : (b - a) / 60000 < 2 ^ 53 :=
    lt_of_le_of_lt (Int.ediv_le_self _ hd0) hbound
  have h0 : doubleOfInt (b - a) = b - a := doubleOfInt_exact _ hd0 hbound
  have h1 : floorOfQuotient (b - a) 60000 = (b - a) / 60000 := by
    have h := floorOfQuotient_exact (b - a) 60000 16 hd0 hbound (by decide) (by decide)
      (by decide) (by decide)
    simpa using h
  have h2 : floorOfQuotient ((b - a) / 60000) 60 = (b - a) / 60000 / 60 := by
    have h := floorOfQuotient_exact ((b - a) / 60000) 60 6 hm0 hm53 (by decide)
      (by decide) (by decide) (by decide)
    simpa using h
  have h3 : Int.tmod ((b - a) / 60000) 60 = (b - a) / 60000 % 60 :=
    Int.tmod_eq_emod hm0 (by decide)
  refine ⟨fun hlt => ?_, fun hge => ⟨?_, Int.ediv_add_emod _ _,
    Int.emod_nonneg _ (by decide), Int.emod_lt_of_pos _ (by decide)⟩, ?_, ?_⟩
  · simp [calculateDuration, hs, he, hsv, hev, h0, h1, hlt]
  · have hnlt : ¬ (b - a) / 60000 < 60 := by omega
    simp [calculateDuration, hs, he, hsv, hev, h0, h1, h2, h3, hnlt]
  · intro x
    rfl
  · intro x
    cases x <;> rfl

/-- Witness of `calculateDuration_format`: two hours, five minutes and five
seconds. -/
theorem calculateDuration_format_witness :
    calculateDuration exampleTimeValue (some "2024-10-27T03:33:20Z")
      (some "2024-10-27T05:38:25Z") = "2h 5m" :=
  ((calculateDuration_format exampleTimeValue "2024-10-27T03:33:20Z"
    "2024-10-27T05:38:25Z" 1730000000000 1730007505000 (by decide) (by decide) rfl rfl
    (by decide) (by decide)).2.1 (by decide)).1

/-- C29: `trimError` returns "—" when the message is missing or empty, the
message unchanged when its length is at most 100, and otherwise its first 100
code units followed by "..."; the result is never longer than 103 code units
and starts with the first min(100, length) code units of a non-empty
message. -/
theorem trimError_cases (m : CodeUnits) :
    trimError none = emDash ∧
    trimError (some []) = emDash ∧
    (m ≠ [] → m.length ≤ 100 → trimError (some m) = m) ∧
    (100 < m.length → trimError (some m) = m.take 100 ++ ellipsis) ∧
    (trimError (some m)).length ≤ 103 ∧
    (m ≠ [] → ∃ rest, trimError (some m) = m.take (min 100 m.length) ++ rest) := by
  refine ⟨rfl, rfl, ?_, ?_, ?_, ?_⟩
  · intro hne hlen
    have hgt : ¬ m.length > 100 := by omega
    simp [trimError, hne, hgt]
  · intro hlen
    have hne : m ≠ [] := by
      intro h
      simp [h] at hlen
    simp [trimError, hne, hlen]
  · by_cases hne : m = []
    · simp [trimError, hne, emDash]
    · by_cases hlen : m.length > 100
      · simp [trimError, hne, hlen, ellipsis]
      · simp [trimError, hne, hlen]
        omega
  · intro hne
    by_cases hlen : m.length > 100
    · refine ⟨ellipsis, ?_⟩
      have hmin : min 100 m.length = 100 := by omega
      simp [trimError, hne, hlen, hmin]
    · refine ⟨[], ?_⟩
      have hmin : min 100 m.length = m.length := by omega
      simp [trimError, hne, hlen, hmin]

/-- Witness of `trimError_cases`: a message of 105 code units is cut to 100
and the dots. -/
theorem trimError_cases_witness :
    trimError (some (List.replicate 105 65)) = List.replicate 100 65 ++ ellipsis :=
  (trimError_cases (List.replicate 105 65)).2.2.2.1 (by decide)

/-! ## The status badge -/

/-- C30 (the code at the failing input): for a service record that has a
truthy `status` and no `is_healthy`, the badge has the green classes and reads
"Failed". -/
theorem badge_green_failed :
    ServiceCard.badgeColor statusOnlyService
      = "bg-green-100 text-green-800 border-green-200" ∧
    ServiceCard.badgeLabel statusOnlyService = "Failed" ∧
    ServiceCard.badgeColor [("is_healthy", .bool false), ("status", .bool true)]
      = "bg-green-100 text-green-800 border-green-200" ∧
    ServiceCard.badgeLabel [("is_healthy", .bool false), ("status", .bool true)]
      = "Failed" :=
  ⟨rfl, rfl, rfl, rfl⟩

/-- The part of C30 that holds: when `status` is absent or falsy, or
`is_healthy` is truthy, the badge is green exactly when it reads "Success" and
red exactly when it reads "Failed". -/
theorem badge_consistent_without_status (service : List (String × JsValue))
    (h : truthy ((lookupField "status" service).getD .undefined) = false ∨
      truthy ((lookupField "is_healthy" service).getD .undefined) = true) :
    (ServiceCard.badgeColor service = "bg-green-100 text-green-800 border-green-200" ↔
      ServiceCard.badgeLabel service = "Success") ∧
    (ServiceCard.badgeColor service = "bg-red-100 text-red-800 border-red-200" ↔
      ServiceCard.badgeLabel service = "Failed") := by
  by_cases hh : truthy ((lookupField "is_healthy" service).getD .undefined) = true
  · simp [ServiceCard.badgeColor, ServiceCard.badgeLabel, getStatusColor, hh]
  · have hs : truthy ((lookupField "status" service).getD .undefined) = false := by
      rcases h with h | h
      · exact h
      · exact absurd h hh
    simp [ServiceCard.badgeColor, ServiceCard.badgeLabel, getStatusColor, hh, hs]

/-! ## The service forms -/

theorem validateForm_accepts (P : Builtins) (f : FormData)
    (h : validateForm P f = some true) :
    (∃ n u, f.name = .str n ∧ f.url = .str u ∧ isBlank n = false ∧ isBlank u = false ∧
      P.validUrl u = true) ∧
    validateJSON P f.request_headers = true ∧
    (f.request_body = "" ∨ validateJSON P f.request_body = true) ∧
    validateJSON P f.response_validation = true := by
  unfold validateForm validateFormErrors at h
  cases hn : f.name <;> simp [hn, trimmedBlank] at h
  rename_i n
  cases hu : f.url <;> simp [hu, trimmedBlank] at h
  rename_i u
  obtain ⟨h1, h2, h3, h4, h5⟩ := h
  have hub : isBlank u = false := by
    by_cases hb : isBlank u = true
    · simp [hb] at h2
    · simpa using hb
  have huv : P.validUrl u = true := by
    by_cases hv : P.validUrl u = true
    · exact hv
    · simp [hub, hv] at h2
  refine ⟨⟨n, u, rfl, rfl, h1, hub, huv⟩, h3, ?_, h5⟩
  by_cases he : f.request_body = ""
  · exact Or.inl he
  · exact Or.inr (h4 he)

theorem validateJSON_parses (P : Builtins) (text : String)
    (h : validateJSON P text = true) (hb : isBlank text = false) :
    ∃ v, P.parse text = .ok v := by
  unfold validateJSON at h
  simp only [hb, Bool.false_eq_true, if_false] at h
  cases hp : P.parse text with
  | ok v => exact ⟨v, rfl⟩
  | error e => simp [hp] at h

theorem isBlank_false_ne_empty (text : String) (h : isBlank text = false) : text ≠ "" := by
  intro he
  subst he
  simp [isBlank] at h

theorem parse_form_text (P : Builtins) (text : String)
    (hempty : P.parse "\x7b\x7d" = .ok (.obj []))
    (hvalid : validateJSON P text = true) (hblank : isBlank text = true → text = "") :
    ∃ v, P.parse (if (text != "") = true then text else "\x7b\x7d") = .ok v ∧
      (if text = "" then v = .obj [] else P.parse text = .ok v) := by
  by_cases he : text = ""
  · exact ⟨.obj [], by simp [he, hempty], by simp [he]⟩
  · have hb : isBlank text = false := by
      by_cases hb : isBlank text = true
      · exact absurd (hblank hb) he
      · simpa using hb
    obtain ⟨v, hv⟩ := validateJSON_parses P text hvalid hb
    exact ⟨v, by simp [he, hv], by simp [he, hv]⟩

theorem buildPayload_ok (P : Builtins) (f : FormData) (headers body validation : JsValue)
    (hph : P.parse (if (f.request_headers != "") = true then f.request_headers
      else "\x7b\x7d") = .ok headers)
    (hpb : (if (f.request_body != "") = true then P.parse f.request_body else .ok .null)
      = .ok body)
    (hpr : P.parse (if (f.response_validation != "") = true then f.response_validation
      else "\x7b\x7d") = .ok validation) :
    buildPayload P f
      = .ok (.obj [("name", f.name), ("http_method", f.http_method), ("url", f.url),
          ("request_headers", headers), ("request_body", body),
          ("periodic_summary_report", P.parseInt f.periodic_summary_report),
          ("expected_status_code", P.parseInt f.expected_status_code),
          ("expected_latency_ms", P.parseInt f.expected_latency_ms),
          ("response_validation", validation)]) := by
  unfold buildPayload
  rw [hph, hpb, hpr]

theorem parse_form_body (P : Builtins) (text : String)
    (hvalid : text = "" ∨ validateJSON P text = true)
    (hblank : isBlank text = true → text = "") :
    ∃ body,
      (if (text != "") = true then P.parse text else .ok .null) = .ok body ∧
      (if text = "" then body = .null else P.parse text = .ok body) := by
  by_cases he : text = ""
  · exact ⟨.null, by simp [he], by simp [he]⟩
  · have hv : validateJSON P text = true := by
      rcases hvalid with h | h
      · exact absurd h he
      · exact h
    have hbl : isBlank text = false := by
      by_cases hbl : isBlank text = true
      · exact absurd (hblank hbl) he
      · simpa using hbl
    obtain ⟨v, hpv⟩ := validateJSON_parses P text hv hbl
    exact ⟨v, by simp [he, hpv], by simp [he, hpv]⟩

/-- C24 (as stated, refuted): the form whose headers field holds the text
`null` is accepted by `validateForm`, and the payload built from it has
`request_headers: null`, which is not an object. -/
theorem payload_headers_null_counterexample :
    validateForm exampleBuiltins nullHeadersForm = some true ∧
    buildPayload exampleBuiltins nullHeadersForm
      = .ok (.obj [("name", .str "Ping"), ("http_method", .str "GET"),
          ("url", .str "https://example.org/health"), ("request_headers", .null),
          ("request_body", .null), ("periodic_summary_report", .num 120),
          ("expected_status_code", .num 200), ("expected_latency_ms", .num 500),
          ("response_validation", .obj [])]) :=
  ⟨rfl, rfl⟩

/-- C24 (amended): for every form state that `validateForm` accepts and in
which no JSON text consists of white space only, the body handed to
`createService` or `updateService` has exactly the nine fields, in the order
name, http_method, url, request_headers, request_body,
periodic_summary_report, expected_status_code, expected_latency_ms,
response_validation, in which `request_headers` and `response_validation` are
the values that `JSON.parse` returns for the texts of the form, of any JSON
type, or `{}` for an empty text, and `request_body` is such a value, or `null`
for an empty text. -/
theorem payload_shape (P : Builtins) (f : FormData)
    (hv : validateForm P f = some true)
    (hempty : P.parse "\x7b\x7d" = .ok (.obj []))
    (hh : isBlank f.request_headers = true → f.request_headers = "")
    (hb : isBlank f.request_body = true → f.request_body = "")
    (hr : isBlank f.response_validation = true → f.response_validation = "") :
    ∃ headers body validation,
      buildPayload P f
        = .ok (.obj [("name", f.name), ("http_method", f.http_method), ("url", f.url),
            ("request_headers", headers), ("request_body", body),
            ("periodic_summary_report", P.parseInt f.periodic_summary_report),
            ("expected_status_code", P.parseInt f.expected_status_code),
            ("expected_latency_ms", P.parseInt f.expected_latency_ms),
            ("response_validation", validation)]) ∧
      (if f.request_headers = "" then headers = .obj []
        else P.parse f.request_headers = .ok headers) ∧
      (if f.request_body = "" then body = .null else P.parse f.request_body = .ok body) ∧
      (if f.response_validation = "" then validation = .obj []
        else P.parse f.response_validation = .ok validation) := by
  obtain ⟨_, hvh, hvb, hvr⟩ := validateForm_accepts P f hv
  obtain ⟨headers, hph, hhs⟩ := parse_form_text P f.request_headers hempty hvh hh
  obtain ⟨validation, hpr, hrs⟩ := parse_form_text P f.response_validation hempty hvr hr
  obtain ⟨body, hpb, hbs⟩ := parse_form_body P f.request_body hvb hb
  exact ⟨headers, body, validation,
    buildPayload_ok P f headers body validation hph hpb hpr, hhs, hbs, hrs⟩

/-- Witness of `payload_shape`: the filled form. -/
theorem payload_shape_witness :
    ∃ headers body validation,
      buildPayload exampleBuiltins filledForm
        = .ok (.obj [("name", filledForm.name), ("http_method", filledForm.http_method),
            ("url", filledForm.url), ("request_headers", headers), ("request_body", body),
            ("periodic_summary_report",
              exampleBuiltins.parseInt filledForm.periodic_summary_report),
            ("expected_status_code",
              exampleBuiltins.parseInt filledForm.expected_status_code),
            ("expected_latency_ms",
              exampleBuiltins.parseInt filledForm.expected_latency_ms),
            ("response_validation", validation)]) ∧
      (if filledForm.request_headers = "" then headers = .obj []
        else exampleBuiltins.parse filledForm.request_headers = .ok headers) ∧
      (if filledForm.request_body = "" then body = .null
        else exampleBuiltins.parse filledForm.request_body = .ok body) ∧
      (if filledForm.response_validation = "" then validation = .obj []
        else exampleBuiltins.parse filledForm.response_validation = .ok validation) :=
  payload_shape exampleBuiltins filledForm rfl rfl (by decide) (by decide) (by decide)

/-- C26 (the code at the failing input): a form whose headers field, or whose
body field, holds one space is accepted by `validateForm`, which does not
parse a text that is blank after trimming, and then `JSON.parse` of that text
throws while the payload is built: the service call is not reached. -/
theorem blank_json_text_accepted_then_throws :
    validateForm exampleBuiltins blankHeadersForm = some true ∧
    buildPayload exampleBuiltins blankHeadersForm
      = .error ⟨.syntaxError, "Unexpected end of JSON input"⟩ ∧
    validateForm exampleBuiltins blankBodyForm = some true ∧
    buildPayload exampleBuiltins blankBodyForm
      = .error ⟨.syntaxError, "Unexpected end of JSON input"⟩ :=
  ⟨rfl, rfl, rfl, rfl⟩

/-- The part of C26 that holds: when `validateForm` accepts a form in which
no JSON text consists of white space only, the payload is built. -/
theorem payload_built_without_blank_text (P : Builtins) (f : FormData)
    (hv : validateForm P f = some true)
    (hempty : P.parse "\x7b\x7d" = .ok (.obj []))
    (hh : isBlank f.request_headers = true → f.request_headers = "")
    (hb : isBlank f.request_body = true → f.request_body = "")
    (hr : isBlank f.response_validation = true → f.response_validation = "") :
    ∃ payload, buildPayload P f = .ok payload := by
  obtain ⟨_, hvh, hvb, hvr⟩ := validateForm_accepts P f hv
  obtain ⟨headers, hph, _⟩ := parse_form_text P f.request_headers hempty hvh hh
  obtain ⟨validation, hpr, _⟩ := parse_form_text P f.response_validation hempty hvr hr
  obtain ⟨body, hpb, _⟩ := parse_form_body P f.request_body hvb hb
  exact ⟨_, buildPayload_ok P f headers body validation hph hpb hpr⟩

/-! ## The edit round trip -/

theorem validateJSON_of_parse (P : Builtins) (text : String) (v : JsValue)
    (h : P.parse text = .ok v) : validateJSON P text = true := by
  unfold validateJSON
  split
  · rfl
  · simp [h]

/-- C27 (as stated, refuted): a record with a non-blank name, a valid url,
integer numbers, `request_headers: null` and `periodic_summary_report: 0` is
loaded into the form and submitted without an edit; the payload has
`request_headers: {}` and `periodic_summary_report: 120`. -/
theorem edit_round_trip_counterexample :
    lookupField "request_headers" nullHeadersConfig = some .null ∧
    lookupField "periodic_summary_report" nullHeadersConfig = some (.num 0) ∧
    validateForm exampleBuiltins (EditService.loadForm exampleBuiltins nullHeadersConfig)
      = some true ∧
    buildPayload exampleBuiltins (EditService.loadForm exampleBuiltins nullHeadersConfig)
      = .ok (.obj [("name", .str "Ping"), ("http_method", .str "GET"),
          ("url", .str "https://example.org/health"), ("request_headers", .obj []),
          ("request_body", .null), ("periodic_summary_report", .num 120),
          ("expected_status_code", .num 200), ("expected_latency_ms", .num 500),
          ("response_validation", .obj [])]) :=
  ⟨rfl, rfl, rfl, rfl⟩

/-- C27 (amended): for every record returned by `getService` that has a
non-blank name, a valid url, a truthy http_method, non-zero integers
periodic_summary_report, expected_status_code and expected_latency_ms that
`parseInt` returns unchanged, objects request_headers and response_validation
and an object or `null` request_body, `JSON.parse` undoing `JSON.stringify`
on these objects, loading the record into the edit form and submitting
without any edit passes `validateForm` and sends `updateService` a payload
equal to the record on all nine fields. -/
theorem edit_round_trip (P : Builtins) (data : List (String × JsValue))
    (n u : String) (method body : JsValue) (p c l : Int)
    (headers validation : List (String × JsValue))
    (hname : lookupField "name" data = some (.str n)) (hnb : isBlank n = false)
    (hurl : lookupField "url" data = some (.str u)) (hub : isBlank u = false)
    (huv : P.validUrl u = true)
    (hmethod : lookupField "http_method" data = some method) (hmt : truthy method = true)
    (hp : lookupField "periodic_summary_report" data = some (.num p)) (hp0 : p ≠ 0)
    (hpi : P.parseInt (.num p) = .num p)
    (hc : lookupField "expected_status_code" data = some (.num c)) (hc0 : c ≠ 0)
    (hci : P.parseInt (.num c) = .num c)
    (hl : lookupField "expected_latency_ms" data = some (.num l)) (hl0 : l ≠ 0)
    (hli : P.parseInt (.num l) = .num l)
    (hh : lookupField "request_headers" data = some (.obj headers))
    (hhr : P.parse (P.stringify2 (.obj headers)) = .ok (.obj headers))
    (hhn : P.stringify2 (.obj headers) ≠ "")
    (hv : lookupField "response_validation" data = some (.obj validation))
    (hvr : P.parse (P.stringify2 (.obj validation)) = .ok (.obj validation))
    (hvn : P.stringify2 (.obj validation) ≠ "")
    (hb : lookupField "request_body" data = some body)
    (hbc : body = .null ∨
      ((∃ fields, body = .obj fields) ∧ P.parse (P.stringify2 body) = .ok body ∧
        P.stringify2 body ≠ "")) :
    validateForm P (EditService.loadForm P data) = some true ∧
    ∃ fields, buildPayload P (EditService.loadForm P data) = .ok (.obj fields) ∧
      fields.map Prod.fst = payloadKeys ∧
      ∀ k ∈ payloadKeys, lookupField k fields = lookupField k data := by
  have hn0 : n ≠ "" := isBlank_false_ne_empty n hnb
  have hu0 : u ≠ "" := isBlank_false_ne_empty u hub
  have htn : truthy (.str n) = true := by simpa [truthy] using hn0
  have htu : truthy (.str u) = true := by simpa [truthy] using hu0
  have htp : truthy (.num p) = true := by simpa [truthy] using hp0
  have htc : truthy (.num c) = true := by simpa [truthy] using hc0
  have htl : truthy (.num l) = true := by simpa [truthy] using hl0
  have hth : truthy (.obj headers) = true := rfl
  have htv : truthy (.obj validation) = true := rfl
  have hform : EditService.loadForm P data =
      { name := .str n, http_method := method, url := .str u,
        request_headers := P.stringify2 (.obj headers),
        request_body := if truthy body then P.stringify2 body else "",
        periodic_summary_report := .num p, expected_status_code := .num c,
        expected_latency_ms := .num l,
        response_validation := P.stringify2 (.obj validation) } := by
    simp [EditService.loadForm, orDefault, hname, hurl, hmethod, hmt, hp, hc, hl,
      hh, hv, hb, htn, htu, htp, htc, htl, hth, htv]
  have hbody : (if ((if truthy body then P.stringify2 body else "") != "") = true
        then P.parse (if truthy body then P.stringify2 body else "") else .ok .null)
      = .ok body ∧
      ((if truthy body then P.stringify2 body else "") = "" ∨
        validateJSON P (if truthy body then P.stringify2 body else "") = true) := by
    rcases hbc with hnull | ⟨⟨fields, hobj⟩, hround, hne⟩
    · subst hnull
      simp [truthy]
    · have ht : truthy body = true := by
        subst hobj
        rfl
      simp only [ht, if_true]
      exact ⟨by simp [hne, hround], Or.inr (validateJSON_of_parse P _ _ hround)⟩
  have hvh := validateJSON_of_parse P _ _ hhr
  have hvv := validateJSON_of_parse P _ _ hvr
  rw [hform]
  refine ⟨?_, ?_⟩
  · have hbv := hbody.2
    simp only [validateForm, validateFormErrors, trimmedBlank, hnb, hub, huv, hvh, hvv,
      bind, Option.bind, pure]
    rcases hbv with h0 | h1
    · simp [h0]
    · simp [h1]
  · refine ⟨_, buildPayload_ok P _ (.obj headers) body (.obj validation) ?_ hbody.1 ?_,
      rfl, ?_⟩
    · simp [hhn, hhr]
    · simp [hvn, hvr]
    · intro k hk
      simp only [payloadKeys, List.mem_cons, List.mem_singleton, List.not_mem_nil,
        or_false] at hk
      rcases hk with rfl | rfl | rfl | rfl | rfl | rfl | rfl | rfl | rfl <;>
        simp [lookupField, hname, hurl, hmethod, hp, hc, hl, hh, hv, hb, hpi, hci, hli]

/-- Witness of `edit_round_trip`: a record with one header, no body and an
empty validation rule. -/
theorem edit_round_trip_witness :
    validateForm exampleBuiltins (EditService.loadForm exampleBuiltins pingConfig)
      = some true ∧
    ∃ fields, buildPayload exampleBuiltins (EditService.loadForm exampleBuiltins pingConfig)
        = .ok (.obj fields) ∧
      fields.map Prod.fst = payloadKeys ∧
      ∀ k ∈ payloadKeys, lookupField k fields = lookupField k pingConfig :=
  edit_round_trip exampleBuiltins pingConfig "Ping" "https://example.org/health"
    (.str "POST") .null 60 204 300 [("Accept", .str "text/plain")] []
    rfl (by decide) rfl (by decide) rfl rfl rfl rfl (by decide) rfl rfl (by decide) rfl
    rfl (by decide) rfl rfl rfl (by decide) rfl rfl (by decide) rfl (Or.inl rfl)

end APIPulse
